import Mathlib

/-!
# Verification of the inventory tracker core

Shallow embedding of the inventory / transaction / session engine of the
inventory tracker application (`src/lib/products.js` catalog functions,
`src/lib/inventory.js` functions — `getInventory`, `getInventorySummary`,
`updateInventoryQuantity`, `createInventoryTransaction` and its three
`updateInventoryFor*` helpers — and `src/lib/sessions.js`).

Modelling conventions, matching the source:

* The relational store is a record of lists, one per table, in insertion
  order.  `INSERT` appends a row; `UPDATE ... WHERE k` maps over the list
  mutating every row matching `k` (SQL semantics); `fetchOne`/`SELECT ... = ?`
  is `List.find?` (first matching row).  A comparison of a column with SQL
  `NULL` never matches, which the `Option` equality below reproduces.
* Every SQL statement commits independently (no multi-statement database
  transaction exists anywhere in the source).  A mutating service function
  therefore returns the state *as of the throw point* together with an
  optional error: `DB × Option Err`.  Statements executed before a throw
  stay committed.
* `generateId(prefix)` returns the prefix concatenated with a fresh UUID.
  Identifiers are opaque; they are modelled as a prefix string paired with a
  counter drawn from the store's `nextId`, which gives the same freshness
  semantics without string-concatenation reasoning.
* JavaScript numbers holding quantities, prices and thresholds are modelled
  as `Int` (the application only ever adds, subtracts and compares them).
* Timestamp columns (`created_at`, `updated_at`, `last_counted`,
  `started_at`, `completed_at`) are not modelled: no claim depends on their
  values, only on which rows exist and on their non-timestamp columns.
  `ORDER BY created_at DESC` over rows inserted by the engine is modelled as
  reversal of insertion order.
* Thrown error strings are modelled by the closed enum `Err`, one
  constructor per distinct message in the source.
-/

namespace Inventory

/-- Opaque identifier: `generateId(prefix)` in `src/lib/db.js` returns
`prefix + uuidv4()`; modelled as the prefix together with a fresh counter. -/
structure Ident where
  tag : String
  n : Nat
deriving DecidableEq, Repr

/-- Row of `products` (columns of the `INSERT` in `createProduct`). -/
structure Product where
  id : Ident
  name : String
  barcode : Option String
  description : Option String
  category_id : Option Ident
  supplier_id : Option Ident
  unit_price : Int
  unit_cost : Int
  case_size : Option Int
  minimum_stock : Int
  image_url : Option String
  varietal : Option String
  vintage : Option String
  region : Option String
  created_by : String
  is_active : Bool
deriving DecidableEq, Repr

/-- Row of `categories`. -/
structure Category where
  id : Ident
  name : String
  parent_id : Option Ident
deriving DecidableEq, Repr

/-- Row of `locations`. -/
structure Location where
  id : Ident
  name : String
  type : String
deriving DecidableEq, Repr

/-- Row of `inventory`, keyed by (product_id, location_id). -/
structure InventoryRecord where
  id : Ident
  product_id : Ident
  location_id : Ident
  quantity : Int
deriving DecidableEq, Repr

/-- Row of `inventory_transactions` (the ledger). -/
structure Txn where
  id : Ident
  transaction_type : String
  product_id : Ident
  source_location_id : Option Ident
  destination_location_id : Option Ident
  quantity : Int
  batch_number : Option String
  expiration_date : Option String
  notes : Option String
  created_by : String
  session_id : Option Ident
deriving DecidableEq, Repr

/-- Row of `sessions`. -/
structure Session where
  id : Ident
  session_type : String
  status : String
  location_id : Ident
  created_by : String
  notes : Option String
deriving DecidableEq, Repr

/-- The relational store: one list per table, plus the id counter backing
`generateId`. -/
structure DB where
  products : List Product
  categories : List Category
  locations : List Location
  inventory : List InventoryRecord
  transactions : List Txn
  sessions : List Session
  nextId : Nat
deriving DecidableEq, Repr

/-- A store with every table empty. -/
def DB.empty : DB :=
  { products := [], categories := [], locations := [], inventory := [],
    transactions := [], sessions := [], nextId := 0 }

/-- `generateId(prefix)`: fresh identifier plus the advanced store. -/
def freshId (tag : String) (db : DB) : Ident × DB :=
  (⟨tag, db.nextId⟩, { db with nextId := db.nextId + 1 })

/-- Thrown error strings of the modelled service functions. -/
inductive Err where
  /-- `'Product with this barcode already exists'` -/
  | productBarcodeExists
  /-- The schema's `barcode TEXT UNIQUE` constraint violation
  (`UNIQUE constraint failed: products.barcode`), raised by the `INSERT` and
  rethrown by `executeQuery`. -/
  | uniqueConstraintBarcode
  /-- `'Product not found in this location'` -/
  | productNotInLocation
  /-- `'Insufficient quantity available'` -/
  | insufficientQuantity
  /-- `'Product not found in source location'` -/
  | productNotInSourceLocation
  /-- `'Insufficient quantity available for transfer'` -/
  | insufficientForTransfer
  /-- `'Session not found'` -/
  | sessionNotFound
  /-- `'Session is already completed or cancelled'` -/
  | sessionNotInProgress
  /-- `'Cannot add products to a completed or cancelled session'` -/
  | cannotAddToSession
deriving DecidableEq, Repr

/-- The spec's `InsufficientStock` condition: the two "insufficient"
messages thrown by `updateInventoryForCheckOut` / `updateInventoryForTransfer`. -/
def Err.isInsufficientStock : Err → Bool
  | .insufficientQuantity => true
  | .insufficientForTransfer => true
  | _ => false

/-- The spec's `InvalidState` condition: the messages thrown when a session
is no longer `in_progress`. -/
def Err.isInvalidState : Err → Bool
  | .sessionNotInProgress => true
  | .cannotAddToSession => true
  | _ => false

/-- The spec's `DuplicateKey` condition (barcode collision): the app-level
duplicate-check throw or the schema's unique-constraint failure. -/
def Err.isDuplicateKey : Err → Bool
  | .productBarcodeExists => true
  | .uniqueConstraintBarcode => true
  | _ => false

/-- First row of an `inventory` row list matching a (product, location) key. -/
def findRec (inv : List InventoryRecord) (productId locationId : Ident) :
    Option InventoryRecord :=
  inv.find? (fun r => r.product_id == productId && r.location_id == locationId)

/-- `SELECT * FROM inventory WHERE product_id = ? AND location_id = ?`
(`fetchOne`: first matching row). -/
def findInventory (db : DB) (productId locationId : Ident) : Option InventoryRecord :=
  findRec db.inventory productId locationId

/-- `UPDATE inventory SET quantity = quantity + δ WHERE product_id = ? AND
location_id = ?`: every matching row is mutated. -/
def addQtyAll (inv : List InventoryRecord) (productId locationId : Ident) (δ : Int) :
    List InventoryRecord :=
  inv.map (fun r =>
    if r.product_id == productId && r.location_id == locationId then
      { r with quantity := r.quantity + δ }
    else r)

/-- `UPDATE inventory SET quantity = ? WHERE product_id = ? AND location_id = ?`. -/
def setQtyAll (inv : List InventoryRecord) (productId locationId : Ident) (q : Int) :
    List InventoryRecord :=
  inv.map (fun r =>
    if r.product_id == productId && r.location_id == locationId then
      { r with quantity := q }
    else r)

/-- `UPDATE inventory ... WHERE product_id = ? AND location_id = ?` where the
location key comes from a nullable column (`cancelSession`'s reversal loop);
SQL `column = NULL` matches no row. -/
def addQtyOpt (inv : List InventoryRecord) (productId : Ident) (locationId : Option Ident)
    (δ : Int) : List InventoryRecord :=
  inv.map (fun r =>
    if r.product_id == productId && locationId == some r.location_id then
      { r with quantity := r.quantity + δ }
    else r)

/-- `updateInventoryForCheckIn` (`src/lib/inventory.js`): add to an existing
record, or insert a record initialized to the incoming quantity. -/
def updateInventoryForCheckIn (db : DB) (productId locationId : Ident) (quantity : Int) : DB :=
  match findInventory db productId locationId with
  | some _ => { db with inventory := addQtyAll db.inventory productId locationId quantity }
  | none =>
      let (id, db1) := freshId "inv-" db
      { db1 with inventory := db1.inventory ++
          [{ id := id, product_id := productId, location_id := locationId,
             quantity := quantity }] }

/-- `updateInventoryForCheckOut`: the record must exist and hold at least the
requested quantity, else throws before any write. -/
def updateInventoryForCheckOut (db : DB) (productId locationId : Ident) (quantity : Int) :
    DB × Option Err :=
  match findInventory db productId locationId with
  | none => (db, some .productNotInLocation)
  | some existing =>
      if existing.quantity < quantity then (db, some .insufficientQuantity)
      else
        ({ db with inventory := addQtyAll db.inventory productId locationId (-quantity) }, none)

/-- `updateInventoryForTransfer`: validate and debit the source, then credit
(or create) the destination; the destination is re-fetched after the debit. -/
def updateInventoryForTransfer (db : DB) (productId sourceLocationId destinationLocationId : Ident)
    (quantity : Int) : DB × Option Err :=
  match findInventory db productId sourceLocationId with
  | none => (db, some .productNotInSourceLocation)
  | some sourceInventory =>
      if sourceInventory.quantity < quantity then (db, some .insufficientForTransfer)
      else
        let db1 := { db with inventory := addQtyAll db.inventory productId sourceLocationId (-quantity) }
        match findInventory db1 productId destinationLocationId with
        | some _ =>
            ({ db1 with inventory := addQtyAll db1.inventory productId destinationLocationId quantity },
             none)
        | none =>
            let (id, db2) := freshId "inv-" db1
            ({ db2 with inventory := db2.inventory ++
                [{ id := id, product_id := productId, location_id := destinationLocationId,
                   quantity := quantity }] }, none)

/-- Payload of `createInventoryTransaction`'s `transactionData` argument. -/
structure TxnData where
  transaction_type : String
  product_id : Ident
  source_location_id : Option Ident
  destination_location_id : Option Ident
  quantity : Int
  batch_number : Option String
  expiration_date : Option String
  notes : Option String
deriving DecidableEq, Repr

/-- The ledger row inserted by `createInventoryTransaction` (the columns of
its `INSERT INTO inventory_transactions`), with the freshly generated id. -/
def mkTxnRow (db : DB) (t : TxnData) (userId : String) (sessionId : Option Ident) : Txn :=
  { id := ⟨"trx-", db.nextId⟩, transaction_type := t.transaction_type,
    product_id := t.product_id,
    source_location_id := t.source_location_id,
    destination_location_id := t.destination_location_id,
    quantity := t.quantity, batch_number := t.batch_number,
    expiration_date := t.expiration_date, notes := t.notes,
    created_by := userId, session_id := sessionId }

/-- The store right after `createInventoryTransaction`'s row insert (id
generated, row appended), before any inventory mutation. -/
def dbIns (db : DB) (t : TxnData) (userId : String) (sessionId : Option Ident) : DB :=
  { db with nextId := db.nextId + 1,
            transactions := db.transactions ++ [mkTxnRow db t userId sessionId] }

/-- `createInventoryTransaction` (`src/lib/inventory.js`): inserts the ledger
row first, then dispatches the inventory mutation on the transaction type.
The row insert has already committed when a later quantity check throws. -/
def createInventoryTransaction (db : DB) (t : TxnData) (userId : String)
    (sessionId : Option Ident) : DB × Option Err :=
  let db2 := dbIns db t userId sessionId
  if t.transaction_type == "check_in" then
    match t.destination_location_id with
    | some dest => (updateInventoryForCheckIn db2 t.product_id dest t.quantity, none)
    | none => (db2, none)
  else if t.transaction_type == "check_out" then
    match t.source_location_id with
    | some src => updateInventoryForCheckOut db2 t.product_id src t.quantity
    | none => (db2, none)
  else if t.transaction_type == "transfer" then
    match t.source_location_id, t.destination_location_id with
    | some src, some dest => updateInventoryForTransfer db2 t.product_id src dest t.quantity
    | some _, none => (db2, none)
    | none, _ => (db2, none)
  else (db2, none)

/-- `updateInventoryQuantity` (`src/lib/inventory.js`): sets the cached
quantity to the given target (creating the record if absent) and logs one
`adjustment` transaction carrying the absolute delta, directed via the
source/destination columns. No validation of the target is performed. -/
def updateInventoryQuantity (db : DB) (productId locationId : Ident) (quantity : Int)
    (userId : String) : DB × Option Err :=
  match findInventory db productId locationId with
  | some existingInventory =>
      let adjustment := quantity - existingInventory.quantity
      let db1 := { db with inventory := setQtyAll db.inventory productId locationId quantity }
      createInventoryTransaction db1
        { transaction_type := "adjustment", product_id := productId,
          source_location_id := if adjustment < 0 then some locationId else none,
          destination_location_id := if adjustment > 0 then some locationId else none,
          quantity := (adjustment.natAbs : Int),
          batch_number := none, expiration_date := none,
          notes := some ("Manual quantity adjustment from " ++
            toString existingInventory.quantity ++ " to " ++ toString quantity) }
        userId none
  | none =>
      let (id, db1) := freshId "inv-" db
      let db2 := { db1 with inventory := db1.inventory ++
          [{ id := id, product_id := productId, location_id := locationId,
             quantity := quantity }] }
      createInventoryTransaction db2
        { transaction_type := "adjustment", product_id := productId,
          source_location_id := none,
          destination_location_id := some locationId,
          quantity := quantity,
          batch_number := none, expiration_date := none,
          notes := some "Initial inventory setup" }
        userId none

/-- Payload of `createProduct`'s `productData` argument. -/
structure ProductData where
  name : String
  barcode : Option String
  description : Option String
  category_id : Option Ident
  supplier_id : Option Ident
  unit_price : Int
  unit_cost : Int
  case_size : Option Int
  minimum_stock : Int
  image_url : Option String
  varietal : Option String
  vintage : Option String
  region : Option String
deriving DecidableEq, Repr

/-- JavaScript truthiness of a nullable string column value: `null`,
`undefined` and the empty string are falsy. -/
def truthyStr : Option String → Bool
  | none => false
  | some s => !(s == "")

/-- Admissibility of an inserted barcode against the existing `products`
rows under the schema's `barcode TEXT UNIQUE` constraint: `NULL` values
never conflict, equal non-null values (the empty string included) do. -/
def barcodeConflict (db : DB) (bar : Option String) : Bool :=
  match bar with
  | some b => (db.products.find? (fun p => p.barcode == some b)).isSome
  | none => false

/-- `createProduct` (`src/lib/products.js`): `if (barcode) { ... }` runs the
duplicate check only for a truthy barcode, throwing before the insert when a
product with that barcode already exists.  The `INSERT` itself is then
subject to the schema's `barcode TEXT UNIQUE` constraint; a violation —
reachable only for a falsy (empty-string) duplicate that skipped the
app-level check — is raised by the database, rethrown by `executeQuery`,
and no row is written.  New products are active (`is_active` defaults to 1
in the schema; the insert does not set it). -/
def createProduct (db : DB) (pd : ProductData) (userId : String) : DB × Option Err :=
  let dup :=
    if truthyStr pd.barcode then
      (db.products.find? (fun p => p.barcode == pd.barcode)).isSome
    else false
  if dup then (db, some .productBarcodeExists)
  else if barcodeConflict db pd.barcode then (db, some .uniqueConstraintBarcode)
  else
    let (id, db1) := freshId "prod-" db
    ({ db1 with products := db1.products ++
        [{ id := id, name := pd.name, barcode := pd.barcode, description := pd.description,
           category_id := pd.category_id, supplier_id := pd.supplier_id,
           unit_price := pd.unit_price, unit_cost := pd.unit_cost,
           case_size := pd.case_size, minimum_stock := pd.minimum_stock,
           image_url := pd.image_url, varietal := pd.varietal, vintage := pd.vintage,
           region := pd.region, created_by := userId, is_active := true }] }, none)

/-- Decidable substring test on character lists (`LIKE '%needle%'`). -/
def infixB (needle : List Char) : List Char → Bool
  | [] => needle.isEmpty
  | c :: rest => needle.isPrefixOf (c :: rest) || infixB needle rest

/-- SQLite `column LIKE '%term%'` (ASCII case-insensitive); `NULL LIKE x` is
not true. -/
def likeContains (col : Option String) (term : String) : Bool :=
  match col with
  | none => false
  | some s => infixB term.toLower.toList s.toLower.toList

/-- Filter bag of `getInventory` (query parameters of the inventory route). -/
structure InventoryFilters where
  locationId : Option Ident
  categoryId : Option Ident
  search : Option String
  lowStock : Bool
  limit : Nat
  offset : Nat
deriving Repr

/-- One result row of `getInventory`'s join of `inventory` with `products`,
`locations` and (left) `categories`. -/
structure InventoryRow where
  record : InventoryRecord
  product : Product
  location : Location
  category : Option Category
deriving DecidableEq, Repr

/-- The inner joins of `getInventory`: a row survives only if its product and
location resolve; the category join is a left join. -/
def rowOf (db : DB) (r : InventoryRecord) : Option InventoryRow :=
  match db.products.find? (fun p => p.id == r.product_id),
        db.locations.find? (fun l => l.id == r.location_id) with
  | some p, some l =>
      some { record := r, product := p, location := l,
             category := p.category_id.bind (fun c => db.categories.find? (fun x => x.id == c)) }
  | _, _ => none

/-- The `WHERE` clause of `getInventory`: always `p.is_active = 1`, then the
optional filters exactly as appended by the source. -/
def matchesFilters (f : InventoryFilters) (row : InventoryRow) : Bool :=
  row.product.is_active
  && (match f.locationId with
      | some l => row.record.location_id == l
      | none => true)
  && (match f.categoryId with
      | some c => row.product.category_id == some c
          || (match row.category with
              | some cat => cat.parent_id == some c
              | none => false)
      | none => true)
  && (match f.search with
      | some s => likeContains (some row.product.name) s
          || likeContains row.product.barcode s
          || likeContains row.product.description s
      | none => true)
  && (!f.lowStock || row.record.quantity ≤ row.product.minimum_stock)

/-- Insert into a list sorted by `le` (model of SQL `ORDER BY`; the SQL
result order among ties is unspecified, any stable order is faithful). -/
def insertSorted (le : α → α → Bool) (x : α) : List α → List α
  | [] => [x]
  | y :: ys => if le x y then x :: y :: ys else y :: insertSorted le x ys

/-- Insertion sort by `le`. -/
def sortBy (le : α → α → Bool) : List α → List α
  | [] => []
  | x :: xs => insertSorted le x (sortBy le xs)

/-- `getInventory` (`src/lib/inventory.js`): join, filter, `ORDER BY p.name`,
`LIMIT ? OFFSET ?`. -/
def getInventory (db : DB) (f : InventoryFilters) : List InventoryRow :=
  ((sortBy (fun a b => a.product.name ≤ b.product.name)
      ((db.inventory.filterMap (rowOf db)).filter (matchesFilters f))).drop
    f.offset).take f.limit

/-- `inventory` rows joined with their active product (`JOIN products ...
WHERE p.is_active = 1`), as used by all three summary queries. -/
def activePairs (db : DB) : List (InventoryRecord × Product) :=
  db.inventory.filterMap (fun r =>
    (db.products.find? (fun p => p.id == r.product_id)).bind (fun p =>
      if p.is_active then some (r, p) else none))

/-- One row of `getInventorySummary`'s category breakdown. -/
structure CategorySummary where
  category_id : Ident
  category_name : String
  total_bottles : Int
  total_value : Int
  product_count : Nat
deriving DecidableEq, Repr

/-- Result shape of `getInventorySummary`. -/
structure InventorySummary where
  total_bottles : Int
  total_value : Int
  categories : List CategorySummary
  low_stock_count : Nat
deriving DecidableEq, Repr

/-- `getInventorySummary` (`src/lib/inventory.js`): totals over active
inventory, per-category roll-up (inner join on the product's category,
grouped, ordered by category name, empty groups absent), and the count of
active rows with `i.quantity <= p.minimum_stock`. -/
def getInventorySummary (db : DB) : InventorySummary :=
  let pairs := activePairs db
  let catRows := fun (c : Category) => pairs.filter (fun x => x.2.category_id == some c.id)
  { total_bottles := (pairs.map (fun x => x.1.quantity)).sum,
    total_value := (pairs.map (fun x => x.1.quantity * x.2.unit_price)).sum,
    categories :=
      (sortBy (fun a b => a.name ≤ b.name)
          (db.categories.filter (fun c => !(catRows c).isEmpty))).map (fun c =>
        { category_id := c.id, category_name := c.name,
          total_bottles := ((catRows c).map (fun x => x.1.quantity)).sum,
          total_value := ((catRows c).map (fun x => x.1.quantity * x.2.unit_price)).sum,
          product_count := ((catRows c).map (fun x => x.2.id)).dedup.length }),
    low_stock_count :=
      (pairs.filter (fun x => x.1.quantity ≤ x.2.minimum_stock)).length }

/-- Payload of `createSession`'s `sessionData` argument. -/
structure SessionData where
  session_type : String
  location_id : Ident
  notes : Option String
deriving DecidableEq, Repr

/-- `createSession` (`src/lib/sessions.js`): inserts a session with status
`'in_progress'`. -/
def createSession (db : DB) (sd : SessionData) (userId : String) : DB × Option Err :=
  let (id, db1) := freshId "sess-" db
  ({ db1 with sessions := db1.sessions ++
      [{ id := id, session_type := sd.session_type, status := "in_progress",
         location_id := sd.location_id, created_by := userId, notes := sd.notes }] }, none)

/-- `getSessionById`: `SELECT ... FROM sessions WHERE s.id = ?` (`fetchOne`). -/
def getSessionById (db : DB) (sessionId : Ident) : Option Session :=
  db.sessions.find? (fun s => s.id == sessionId)

/-- `getSessionTransactions`: ledger rows of the session, `ORDER BY
created_at DESC` (most recent first; reversal of insertion order). -/
def getSessionTransactions (db : DB) (sessionId : Ident) : List Txn :=
  (db.transactions.filter (fun t => t.session_id == some sessionId)).reverse

/-- Payload of `addProductToSession`'s `transactionData` argument. -/
structure SessionTxnData where
  product_id : Ident
  quantity : Int
  batch_number : Option String
  expiration_date : Option String
  notes : Option String
deriving DecidableEq, Repr

/-- `addProductToSession` (`src/lib/sessions.js`): rejects unless the session
is `in_progress`; derives the transaction type and its source/destination
from the session, then delegates to `createInventoryTransaction`. -/
def addProductToSession (db : DB) (sessionId : Ident) (td : SessionTxnData)
    (userId : String) : DB × Option Err :=
  match getSessionById db sessionId with
  | none => (db, some .sessionNotFound)
  | some session =>
      if session.status != "in_progress" then (db, some .cannotAddToSession)
      else
        let ttype := if session.session_type == "check_in" then "check_in" else "check_out"
        createInventoryTransaction db
          { transaction_type := ttype, product_id := td.product_id,
            source_location_id := if ttype == "check_in" then none else some session.location_id,
            destination_location_id := if ttype == "check_in" then some session.location_id else none,
            quantity := td.quantity, batch_number := td.batch_number,
            expiration_date := td.expiration_date, notes := td.notes }
          userId (some sessionId)

/-- `completeSession` (`src/lib/sessions.js`): rejects unless `in_progress`;
sets the status to `'completed'` (`UPDATE sessions ... WHERE id = ?`). -/
def completeSession (db : DB) (sessionId : Ident) (_userId : String) : DB × Option Err :=
  match getSessionById db sessionId with
  | none => (db, some .sessionNotFound)
  | some session =>
      if session.status != "in_progress" then (db, some .sessionNotInProgress)
      else
        ({ db with sessions := db.sessions.map (fun s =>
            if s.id == sessionId then { s with status := "completed" } else s) }, none)

/-- One step of `cancelSession`'s reversal loop: a `check_in` transaction's
quantity is subtracted from its destination record, a `check_out`
transaction's quantity is added back to its source record; other types are
not reversed. -/
def reverseTxn (inv : List InventoryRecord) (t : Txn) : List InventoryRecord :=
  if t.transaction_type == "check_in" then
    addQtyOpt inv t.product_id t.destination_location_id (-t.quantity)
  else if t.transaction_type == "check_out" then
    addQtyOpt inv t.product_id t.source_location_id t.quantity
  else inv

/-- `cancelSession` (`src/lib/sessions.js`): rejects unless `in_progress`;
reverses every transaction logged under the session directly against
`inventory` (no new ledger rows), then sets the status to `'cancelled'`. -/
def cancelSession (db : DB) (sessionId : Ident) (_userId : String) : DB × Option Err :=
  match getSessionById db sessionId with
  | none => (db, some .sessionNotFound)
  | some session =>
      if session.status != "in_progress" then (db, some .sessionNotInProgress)
      else
        let inv1 := (getSessionTransactions db sessionId).foldl reverseTxn db.inventory
        ({ db with inventory := inv1,
                   sessions := db.sessions.map (fun s =>
                     if s.id == sessionId then { s with status := "cancelled" } else s) }, none)

/-- The mutating entry points of the engine, as a closed operation alphabet
for sequence-level theorems. -/
inductive Op where
  | recordTxn (t : TxnData) (userId : String) (sessionId : Option Ident)
  | setQuantity (productId locationId : Ident) (quantity : Int) (userId : String)
  | newProduct (pd : ProductData) (userId : String)
  | newSession (sd : SessionData) (userId : String)
  | addToSession (sessionId : Ident) (td : SessionTxnData) (userId : String)
  | completeSess (sessionId : Ident) (userId : String)
  | cancelSess (sessionId : Ident) (userId : String)

/-- Dispatch an operation to the service function it names. -/
def applyOp (db : DB) : Op → DB × Option Err
  | .recordTxn t u sid => createInventoryTransaction db t u sid
  | .setQuantity p l q u => updateInventoryQuantity db p l q u
  | .newProduct pd u => createProduct db pd u
  | .newSession sd u => createSession db sd u
  | .addToSession sid td u => addProductToSession db sid td u
  | .completeSess sid u => completeSession db sid u
  | .cancelSess sid u => cancelSession db sid u

/-- Run a sequence of operations, defined only along all-success paths: the
result is `none` as soon as one operation reports an error. -/
def runOps (db : DB) : List Op → Option DB
  | [] => some db
  | op :: rest =>
      match applyOp db op with
      | (db1, none) => runOps db1 rest
      | (_, some _) => none

/-- Quantity held by the first row of a row list matching a key, `0` when no
record exists. -/
def qtyOf (inv : List InventoryRecord) (productId locationId : Ident) : Int :=
  match findRec inv productId locationId with
  | some r => r.quantity
  | none => 0

/-- Cached quantity of a (product, location) pair: the first matching
`inventory` row's quantity, `0` when no record exists. -/
def cachedQty (db : DB) (productId locationId : Ident) : Int :=
  qtyOf db.inventory productId locationId

/-- Signed contribution of one ledger row to the (product, location) pair:
positive into its destination, negative out of its source. -/
def txnEffect (productId locationId : Ident) (t : Txn) : Int :=
  (if t.product_id == productId && t.destination_location_id == some locationId
   then t.quantity else 0)
  - (if t.product_id == productId && t.source_location_id == some locationId
     then t.quantity else 0)

/-- Signed sum of the ledger rows affecting a (product, location) pair. -/
def ledgerSum (db : DB) (productId locationId : Ident) : Int :=
  (db.transactions.map (txnEffect productId locationId)).sum

/-- The ledger/cache consistency invariant: every pair's cached quantity
equals the signed sum of the ledger rows affecting it. -/
def LedgerInv (db : DB) : Prop :=
  ∀ productId locationId, cachedQty db productId locationId = ledgerSum db productId locationId

/-- The `recordTransaction` payload shapes of the spec's three movement
kinds: a check-in carries a destination, a check-out a source, a transfer
both. -/
def wellFormedTxn (t : TxnData) : Prop :=
  (t.transaction_type = "check_in" ∧ t.destination_location_id.isSome ∧
    t.source_location_id = none) ∨
  (t.transaction_type = "check_out" ∧ t.source_location_id.isSome ∧
    t.destination_location_id = none) ∨
  (t.transaction_type = "transfer" ∧ t.source_location_id.isSome ∧
    t.destination_location_id.isSome)

/-! ### Lemmas about the store helpers -/

theorem sum_map_append (txs : List Txn) (t : Txn) (g : Txn → Int) :
    ((txs ++ [t]).map g).sum = (txs.map g).sum + g t := by
  simp

theorem findRec_map_keyFixed (f : InventoryRecord → InventoryRecord)
    (hf : ∀ r, (f r).product_id = r.product_id ∧ (f r).location_id = r.location_id)
    (inv : List InventoryRecord) (p l : Ident) :
    findRec (inv.map f) p l = (findRec inv p l).map f := by
  induction inv with
  | nil => rfl
  | cons r rs ih =>
      have hkey : ((f r).product_id == p && (f r).location_id == l)
          = (r.product_id == p && r.location_id == l) := by
        rw [(hf r).1, (hf r).2]
      simp only [findRec, List.map_cons, List.find?_cons] at ih ⊢
      rw [hkey]
      cases h : (r.product_id == p && r.location_id == l) <;> simp [ih]

theorem findRec_addQtyAll (inv : List InventoryRecord) (p l : Ident) (δ : Int)
    (p' l' : Ident) :
    findRec (addQtyAll inv p l δ) p' l' =
      (findRec inv p' l').map (fun r =>
        if r.product_id == p && r.location_id == l then
          { r with quantity := r.quantity + δ } else r) :=
  findRec_map_keyFixed _
    (fun r => by
      by_cases h : (r.product_id == p && r.location_id == l) = true <;> simp [h])
    inv p' l'

theorem findRec_setQtyAll (inv : List InventoryRecord) (p l : Ident) (q : Int)
    (p' l' : Ident) :
    findRec (setQtyAll inv p l q) p' l' =
      (findRec inv p' l').map (fun r =>
        if r.product_id == p && r.location_id == l then
          { r with quantity := q } else r) :=
  findRec_map_keyFixed _
    (fun r => by
      by_cases h : (r.product_id == p && r.location_id == l) = true <;> simp [h])
    inv p' l'

theorem addQtyOpt_none (inv : List InventoryRecord) (p : Ident) (δ : Int) :
    addQtyOpt inv p none δ = inv := by
  unfold addQtyOpt
  have h : ∀ r : InventoryRecord,
      (if (r.product_id == p && ((none : Option Ident) == some r.location_id)) = true then
        { r with quantity := r.quantity + δ } else r) = r := by
    intro r
    simp
  simp only [h, List.map_id_fun', id]

theorem addQtyOpt_some (inv : List InventoryRecord) (p l₀ : Ident) (δ : Int) :
    addQtyOpt inv p (some l₀) δ = addQtyAll inv p l₀ δ := by
  unfold addQtyOpt addQtyAll
  congr 1
  funext r
  by_cases h : r.location_id = l₀
  · simp [h]
  · have h' : ¬ l₀ = r.location_id := fun hh => h hh.symm
    simp [h, h']

theorem findRec_key (inv : List InventoryRecord) (p l : Ident) (r : InventoryRecord)
    (hr : findRec inv p l = some r) :
    (r.product_id == p && r.location_id == l) = true := by
  simp only [findRec] at hr
  have h2 := List.find?_some hr
  exact h2

theorem qtyOf_addQtyAll_self (inv : List InventoryRecord) (p l : Ident) (δ : Int)
    (h : (findRec inv p l).isSome) :
    qtyOf (addQtyAll inv p l δ) p l = qtyOf inv p l + δ := by
  rcases Option.isSome_iff_exists.mp h with ⟨r, hr⟩
  have hkey := findRec_key inv p l r hr
  simp only [Bool.and_eq_true, beq_iff_eq] at hkey
  simp [qtyOf, findRec_addQtyAll, hr, hkey.1, hkey.2]

theorem qtyOf_addQtyAll_other (inv : List InventoryRecord) (p l : Ident) (δ : Int)
    (p' l' : Ident) (h : ¬(p' = p ∧ l' = l)) :
    qtyOf (addQtyAll inv p l δ) p' l' = qtyOf inv p' l' := by
  cases hfind : findRec inv p' l' with
  | none => simp [qtyOf, findRec_addQtyAll, hfind]
  | some r =>
      have hkey := findRec_key inv p' l' r hfind
      simp only [Bool.and_eq_true, beq_iff_eq] at hkey
      have hcond : ¬ (r.product_id = p ∧ r.location_id = l) := by
        rintro ⟨hp, hl⟩
        exact h ⟨hkey.1 ▸ hp, hkey.2 ▸ hl⟩
      simp [qtyOf, findRec_addQtyAll, hfind, hcond]

theorem qtyOf_setQtyAll_self (inv : List InventoryRecord) (p l : Ident) (q : Int)
    (h : (findRec inv p l).isSome) :
    qtyOf (setQtyAll inv p l q) p l = q := by
  rcases Option.isSome_iff_exists.mp h with ⟨r, hr⟩
  have hkey := findRec_key inv p l r hr
  simp only [Bool.and_eq_true, beq_iff_eq] at hkey
  simp [qtyOf, findRec_setQtyAll, hr, hkey.1, hkey.2]

theorem qtyOf_setQtyAll_other (inv : List InventoryRecord) (p l : Ident) (q : Int)
    (p' l' : Ident) (h : ¬(p' = p ∧ l' = l)) :
    qtyOf (setQtyAll inv p l q) p' l' = qtyOf inv p' l' := by
  cases hfind : findRec inv p' l' with
  | none => simp [qtyOf, findRec_setQtyAll, hfind]
  | some r =>
      have hkey := findRec_key inv p' l' r hfind
      simp only [Bool.and_eq_true, beq_iff_eq] at hkey
      have hcond : ¬ (r.product_id = p ∧ r.location_id = l) := by
        rintro ⟨hp, hl⟩
        exact h ⟨hkey.1 ▸ hp, hkey.2 ▸ hl⟩
      simp [qtyOf, findRec_setQtyAll, hfind, hcond]

theorem findRec_append (inv₁ inv₂ : List InventoryRecord) (p l : Ident) :
    findRec (inv₁ ++ inv₂) p l = (findRec inv₁ p l).or (findRec inv₂ p l) := by
  simp [findRec, List.find?_append]

theorem qtyOf_append_single_self (inv : List InventoryRecord) (r : InventoryRecord)
    (p l : Ident) (hnone : findRec inv p l = none)
    (hp : r.product_id = p) (hl : r.location_id = l) :
    qtyOf (inv ++ [r]) p l = r.quantity := by
  have hkey : (r.product_id == p && r.location_id == l) = true := by
    simp [hp, hl]
  simp only [findRec] at hnone
  simp [qtyOf, findRec_append, hnone, findRec, List.find?_cons, hkey]

theorem qtyOf_append_single_other (inv : List InventoryRecord) (r : InventoryRecord)
    (p' l' : Ident) (h : ¬(r.product_id = p' ∧ r.location_id = l')) :
    qtyOf (inv ++ [r]) p' l' = qtyOf inv p' l' := by
  have hkey : ¬ (r.product_id == p' && r.location_id == l') = true := by
    simp only [Bool.and_eq_true, beq_iff_eq]
    exact h
  cases hfind : findRec inv p' l' with
  | none => simp [qtyOf, findRec_append, hfind, findRec, List.find?_cons, hkey]
  | some x => simp [qtyOf, findRec_append, hfind]

theorem qtyOf_eq_of_findRec (inv : List InventoryRecord) (p l : Ident)
    (r : InventoryRecord) (hr : findRec inv p l = some r) :
    qtyOf inv p l = r.quantity := by
  simp [qtyOf, hr]

/-! ### Characterization of `createInventoryTransaction`'s branches -/

theorem createInventoryTransaction_checkIn (db : DB) (t : TxnData) (u : String)
    (sid : Option Ident) (d : Ident)
    (htype : t.transaction_type = "check_in") (hd : t.destination_location_id = some d) :
    createInventoryTransaction db t u sid =
      (updateInventoryForCheckIn (dbIns db t u sid) t.product_id d t.quantity, none) := by
  simp [createInventoryTransaction, htype, hd]

theorem createInventoryTransaction_checkOut (db : DB) (t : TxnData) (u : String)
    (sid : Option Ident) (s : Ident)
    (htype : t.transaction_type = "check_out") (hs : t.source_location_id = some s) :
    createInventoryTransaction db t u sid =
      updateInventoryForCheckOut (dbIns db t u sid) t.product_id s t.quantity := by
  simp [createInventoryTransaction, htype, hs]

theorem createInventoryTransaction_transfer (db : DB) (t : TxnData) (u : String)
    (sid : Option Ident) (s d : Ident)
    (htype : t.transaction_type = "transfer") (hs : t.source_location_id = some s)
    (hd : t.destination_location_id = some d) :
    createInventoryTransaction db t u sid =
      updateInventoryForTransfer (dbIns db t u sid) t.product_id s d t.quantity := by
  simp [createInventoryTransaction, htype, hs, hd]

theorem createInventoryTransaction_nonMovement (db : DB) (t : TxnData) (u : String)
    (sid : Option Ident)
    (h1 : t.transaction_type ≠ "check_in") (h2 : t.transaction_type ≠ "check_out")
    (h3 : t.transaction_type ≠ "transfer") :
    createInventoryTransaction db t u sid = (dbIns db t u sid, none) := by
  simp [createInventoryTransaction, h1, h2, h3]

/-! ### Frame facts: which tables each helper touches -/

theorem transactions_updateInventoryForCheckIn (db : DB) (pid d : Ident) (q : Int) :
    (updateInventoryForCheckIn db pid d q).transactions = db.transactions := by
  unfold updateInventoryForCheckIn
  cases findInventory db pid d <;> simp [freshId]

theorem ledgerSum_eq_of_transactions (db db' : DB) (p l : Ident)
    (h : db'.transactions = db.transactions) : ledgerSum db' p l = ledgerSum db p l := by
  simp [ledgerSum, h]

theorem cachedQty_eq_of_inventory (db db' : DB) (p l : Ident)
    (h : db'.inventory = db.inventory) : cachedQty db' p l = cachedQty db p l := by
  simp [cachedQty, h]

theorem ledgerSum_dbIns (db : DB) (t : TxnData) (u : String) (sid : Option Ident)
    (p l : Ident) :
    ledgerSum (dbIns db t u sid) p l = ledgerSum db p l + txnEffect p l (mkTxnRow db t u sid) := by
  simp [ledgerSum, dbIns]

theorem cachedQty_dbIns (db : DB) (t : TxnData) (u : String) (sid : Option Ident)
    (p l : Ident) : cachedQty (dbIns db t u sid) p l = cachedQty db p l := rfl

theorem inventory_dbIns (db : DB) (t : TxnData) (u : String) (sid : Option Ident) :
    (dbIns db t u sid).inventory = db.inventory := rfl

/-- Quantity delta of a successful check-in: `+q` at the destination pair,
`0` elsewhere. -/
theorem cachedQty_updateInventoryForCheckIn (db : DB) (pid d : Ident) (q : Int)
    (p' l' : Ident) :
    cachedQty (updateInventoryForCheckIn db pid d q) p' l' =
      cachedQty db p' l' + (if p' = pid ∧ l' = d then q else 0) := by
  unfold updateInventoryForCheckIn findInventory
  cases hfind : findRec db.inventory pid d with
  | some r =>
      by_cases hc : p' = pid ∧ l' = d
      · obtain ⟨hp, hl⟩ := hc
        subst hp; subst hl
        simp only [cachedQty, if_pos (And.intro rfl rfl)]
        exact qtyOf_addQtyAll_self db.inventory p' l' q (by simp [hfind])
      · simp only [cachedQty, if_neg hc, add_zero]
        exact qtyOf_addQtyAll_other db.inventory pid d q p' l' hc
  | none =>
      by_cases hc : p' = pid ∧ l' = d
      · obtain ⟨hp, hl⟩ := hc
        subst hp; subst hl
        simp only [cachedQty, freshId, if_pos (And.intro rfl rfl)]
        rw [qtyOf_append_single_self db.inventory _ p' l' hfind rfl rfl]
        simp [qtyOf, hfind]
      · simp only [cachedQty, freshId, if_neg hc, add_zero]
        exact qtyOf_append_single_other db.inventory _ p' l'
          (fun hh => hc ⟨hh.1.symm, hh.2.symm⟩)

theorem updateInventoryForCheckOut_success (db : DB) (pid s : Ident) (q : Int)
    (r : InventoryRecord) (hfind : findRec db.inventory pid s = some r)
    (hge : ¬ r.quantity < q) :
    updateInventoryForCheckOut db pid s q =
      ({ db with inventory := addQtyAll db.inventory pid s (-q) }, none) := by
  simp [updateInventoryForCheckOut, findInventory, hfind, hge]

theorem updateInventoryForTransfer_success_existing (db : DB) (pid s d : Ident) (q : Int)
    (r : InventoryRecord) (hfind : findRec db.inventory pid s = some r)
    (hge : ¬ r.quantity < q)
    (hdest : (findRec (addQtyAll db.inventory pid s (-q)) pid d).isSome) :
    updateInventoryForTransfer db pid s d q =
      ({ db with inventory := addQtyAll (addQtyAll db.inventory pid s (-q)) pid d q },
       none) := by
  rcases Option.isSome_iff_exists.mp hdest with ⟨r', hr'⟩
  simp [updateInventoryForTransfer, findInventory, hfind, hge, hr']

theorem updateInventoryForTransfer_success_new (db : DB) (pid s d : Ident) (q : Int)
    (r : InventoryRecord) (hfind : findRec db.inventory pid s = some r)
    (hge : ¬ r.quantity < q)
    (hdest : findRec (addQtyAll db.inventory pid s (-q)) pid d = none) :
    updateInventoryForTransfer db pid s d q =
      ({ db with nextId := db.nextId + 1,
                 inventory := addQtyAll db.inventory pid s (-q) ++
                   [{ id := ⟨"inv-", db.nextId⟩, product_id := pid, location_id := d,
                      quantity := q }] }, none) := by
  simp [updateInventoryForTransfer, findInventory, hfind, hge, hdest, freshId]

/-- Quantity deltas of a successful transfer whose destination record already
exists: `+q` at the destination, `-q` at the source (cancelling out when they
coincide). -/
theorem qtyOf_transfer_existing (inv : List InventoryRecord) (pid s d : Ident) (q : Int)
    (hs_some : (findRec inv pid s).isSome)
    (hd_some : (findRec (addQtyAll inv pid s (-q)) pid d).isSome) (p' l' : Ident) :
    qtyOf (addQtyAll (addQtyAll inv pid s (-q)) pid d q) p' l' =
      qtyOf inv p' l' + (if p' = pid ∧ l' = d then q else 0)
        - (if p' = pid ∧ l' = s then q else 0) := by
  by_cases hcd : p' = pid ∧ l' = d
  · obtain ⟨h1, h2⟩ := hcd
    subst h1; subst h2
    rw [qtyOf_addQtyAll_self _ _ _ _ hd_some]
    by_cases hcs : l' = s
    · subst hcs
      rw [qtyOf_addQtyAll_self _ _ _ _ hs_some]
      simp
    · rw [qtyOf_addQtyAll_other _ _ _ _ _ _ (fun hh => hcs hh.2)]
      simp [hcs]
  · rw [qtyOf_addQtyAll_other _ _ _ _ _ _ hcd]
    by_cases hcs : p' = pid ∧ l' = s
    · obtain ⟨h1, h2⟩ := hcs
      subst h1; subst h2
      rw [qtyOf_addQtyAll_self _ _ _ _ hs_some]
      have h1 : ¬ (p' = p' ∧ l' = d) := fun hh => hcd hh
      have h2 : p' = p' ∧ l' = l' := ⟨rfl, rfl⟩
      rw [if_neg h1, if_pos h2]
      ring
    · rw [qtyOf_addQtyAll_other _ _ _ _ _ _ hcs]
      simp [hcd, hcs]

/-- Quantity deltas of a successful transfer that creates the destination
record: the destination pair had no record (hence quantity `0`), the new
record holds `q`; the source loses `q`. -/
theorem qtyOf_transfer_new (inv : List InventoryRecord) (pid s d : Ident) (q : Int)
    (idr : Ident) (hs_some : (findRec inv pid s).isSome)
    (hd_none : findRec (addQtyAll inv pid s (-q)) pid d = none) (p' l' : Ident) :
    qtyOf (addQtyAll inv pid s (-q) ++
        [{ id := idr, product_id := pid, location_id := d, quantity := q }]) p' l' =
      qtyOf inv p' l' + (if p' = pid ∧ l' = d then q else 0)
        - (if p' = pid ∧ l' = s then q else 0) := by
  have hd_inv_none : findRec inv pid d = none := by
    have h := findRec_addQtyAll inv pid s (-q) pid d
    rw [hd_none] at h
    exact (Option.map_eq_none'.mp h.symm)
  have hds : d ≠ s := by
    intro h
    rcases Option.isSome_iff_exists.mp hs_some with ⟨r, hr⟩
    rw [h, hr] at hd_inv_none
    cases hd_inv_none
  by_cases hcd : p' = pid ∧ l' = d
  · obtain ⟨h1, h2⟩ := hcd
    subst h1; subst h2
    rw [qtyOf_append_single_self _ _ _ _ hd_none rfl rfl]
    simp [qtyOf, hd_inv_none, hds]
  · rw [qtyOf_append_single_other _ _ _ _ (fun hh => hcd ⟨hh.1.symm, hh.2.symm⟩)]
    by_cases hcs : p' = pid ∧ l' = s
    · obtain ⟨h1, h2⟩ := hcs
      subst h1; subst h2
      rw [qtyOf_addQtyAll_self _ _ _ _ hs_some]
      have h1 : ¬ (p' = p' ∧ l' = d) := fun hh => hcd hh
      have h2 : p' = p' ∧ l' = l' := ⟨rfl, rfl⟩
      rw [if_neg h1, if_pos h2]
      ring
    · rw [qtyOf_addQtyAll_other _ _ _ _ _ _ hcs]
      simp [hcd, hcs]

/-- Commuted form of a keyed conditional contribution. -/
theorem if_and_comm (a b c d : Ident) (q : Int) :
    (if a = b ∧ c = d then q else 0) = (if b = a ∧ d = c then q else 0) := by
  by_cases h : a = b ∧ c = d
  · rw [if_pos h, if_pos (And.intro h.1.symm h.2.symm)]
  · rw [if_neg h, if_neg (fun hh => h (And.intro hh.1.symm hh.2.symm))]

/-! ### Preservation of the ledger/cache invariant -/

theorem ledgerInv_of_frame (db db' : DB) (hi : db'.inventory = db.inventory)
    (ht : db'.transactions = db.transactions) (h : LedgerInv db) : LedgerInv db' := by
  intro p l
  rw [cachedQty_eq_of_inventory db db' p l hi, ledgerSum_eq_of_transactions db db' p l ht]
  exact h p l

/-- One engine step that appends exactly one ledger row and shifts every
pair's cached quantity by that row's signed effect preserves the invariant. -/
theorem ledgerInv_step (db : DB) (row : Txn) (db' : DB)
    (htx : db'.transactions = db.transactions ++ [row])
    (hcq : ∀ p l, qtyOf db'.inventory p l = cachedQty db p l + txnEffect p l row)
    (hInv : LedgerInv db) : LedgerInv db' := by
  intro p l
  have h2 : ledgerSum db' p l = ledgerSum db p l + txnEffect p l row := by
    simp [ledgerSum, htx]
  have h1 : cachedQty db' p l = qtyOf db'.inventory p l := rfl
  rw [h1, h2, hcq p l, hInv p l]

theorem ledgerInv_createInventoryTransaction (db : DB) (t : TxnData) (u : String)
    (sid : Option Ident) (hwf : wellFormedTxn t) (hInv : LedgerInv db)
    (hsucc : (createInventoryTransaction db t u sid).2 = none) :
    LedgerInv (createInventoryTransaction db t u sid).1 := by
  rcases hwf with ⟨htype, hdst, hsrc⟩ | ⟨htype, hsrc, hdst⟩ | ⟨htype, hsrc, hdst⟩
  · -- check_in: destination present, source null
    rcases Option.isSome_iff_exists.mp hdst with ⟨d, hd⟩
    rw [createInventoryTransaction_checkIn db t u sid d htype hd]
    refine ledgerInv_step db (mkTxnRow db t u sid) _ ?_ ?_ hInv
    · rw [transactions_updateInventoryForCheckIn]
      rfl
    · intro p l
      have hc := cachedQty_updateInventoryForCheckIn (dbIns db t u sid) t.product_id d
        t.quantity p l
      rw [cachedQty_dbIns] at hc
      have hE : txnEffect p l (mkTxnRow db t u sid) =
          (if p = t.product_id ∧ l = d then t.quantity else 0) := by
        by_cases hcc : p = t.product_id ∧ l = d
        · obtain ⟨e1, e2⟩ := hcc
          subst e1; subst e2
          simp [txnEffect, mkTxnRow, hd, hsrc]
        · have hcc' : ¬ (t.product_id = p ∧ d = l) := fun hh => hcc ⟨hh.1.symm, hh.2.symm⟩
          simp [txnEffect, mkTxnRow, hd, hsrc, hcc, hcc']
      rw [hE]
      exact hc
  · -- check_out: source present, destination null
    rcases Option.isSome_iff_exists.mp hsrc with ⟨s, hs⟩
    rw [createInventoryTransaction_checkOut db t u sid s htype hs] at hsucc ⊢
    cases hfind : findRec db.inventory t.product_id s with
    | none =>
        exfalso
        simp [updateInventoryForCheckOut, findInventory, inventory_dbIns, hfind] at hsucc
    | some r =>
        by_cases hlt : r.quantity < t.quantity
        · exfalso
          simp [updateInventoryForCheckOut, findInventory, inventory_dbIns, hfind, hlt] at hsucc
        · rw [updateInventoryForCheckOut_success (dbIns db t u sid) t.product_id s
            t.quantity r hfind hlt]
          refine ledgerInv_step db (mkTxnRow db t u sid) _ rfl ?_ hInv
          intro p l
          have hE : txnEffect p l (mkTxnRow db t u sid) =
              -(if p = t.product_id ∧ l = s then t.quantity else 0) := by
            by_cases hcc : p = t.product_id ∧ l = s
            · obtain ⟨e1, e2⟩ := hcc
              subst e1; subst e2
              simp [txnEffect, mkTxnRow, hs, hdst]
            · have hcc' : ¬ (t.product_id = p ∧ s = l) := fun hh => hcc ⟨hh.1.symm, hh.2.symm⟩
              simp [txnEffect, mkTxnRow, hs, hdst, hcc, hcc']
          rw [hE]
          by_cases hcc : p = t.product_id ∧ l = s
          · obtain ⟨e1, e2⟩ := hcc
            subst e1; subst e2
            show qtyOf (addQtyAll db.inventory t.product_id l (-t.quantity))
              t.product_id l = _
            rw [qtyOf_addQtyAll_self _ _ _ _ (by simp [hfind])]
            simp [cachedQty]
          · show qtyOf (addQtyAll db.inventory t.product_id s (-t.quantity)) p l = _
            rw [qtyOf_addQtyAll_other _ _ _ _ _ _ hcc]
            simp [cachedQty, hcc]
  · -- transfer: both locations present
    rcases Option.isSome_iff_exists.mp hsrc with ⟨s, hs⟩
    rcases Option.isSome_iff_exists.mp hdst with ⟨d, hd⟩
    rw [createInventoryTransaction_transfer db t u sid s d htype hs hd] at hsucc ⊢
    cases hfind : findRec db.inventory t.product_id s with
    | none =>
        exfalso
        simp [updateInventoryForTransfer, findInventory, inventory_dbIns, hfind] at hsucc
    | some r =>
        by_cases hlt : r.quantity < t.quantity
        · exfalso
          simp [updateInventoryForTransfer, findInventory, inventory_dbIns, hfind, hlt] at hsucc
        · have hE : ∀ p l, txnEffect p l (mkTxnRow db t u sid) =
              (if p = t.product_id ∧ l = d then t.quantity else 0)
                - (if p = t.product_id ∧ l = s then t.quantity else 0) := by
            intro p l
            simp only [txnEffect, mkTxnRow, hd, hs, Bool.and_eq_true, beq_iff_eq,
              Option.some.injEq]
            have c1 : (t.product_id = p ∧ d = l) ↔ (p = t.product_id ∧ l = d) :=
              ⟨fun h => ⟨h.1.symm, h.2.symm⟩, fun h => ⟨h.1.symm, h.2.symm⟩⟩
            have c2 : (t.product_id = p ∧ s = l) ↔ (p = t.product_id ∧ l = s) :=
              ⟨fun h => ⟨h.1.symm, h.2.symm⟩, fun h => ⟨h.1.symm, h.2.symm⟩⟩
            rw [if_congr c1 rfl rfl, if_congr c2 rfl rfl]
          cases hdest : findRec (addQtyAll db.inventory t.product_id s (-t.quantity))
              t.product_id d with
          | some r' =>
              rw [updateInventoryForTransfer_success_existing (dbIns db t u sid)
                t.product_id s d t.quantity r hfind hlt (by simp [dbIns, hdest])]
              refine ledgerInv_step db (mkTxnRow db t u sid) _ rfl ?_ hInv
              intro p l
              rw [hE p l]
              show qtyOf (addQtyAll (addQtyAll db.inventory t.product_id s (-t.quantity))
                t.product_id d t.quantity) p l = _
              rw [qtyOf_transfer_existing db.inventory t.product_id s d t.quantity
                (by simp [hfind]) (by simp [hdest]) p l]
              simp only [cachedQty]
              ring
          | none =>
              rw [updateInventoryForTransfer_success_new (dbIns db t u sid)
                t.product_id s d t.quantity r hfind hlt (by simp [dbIns, hdest])]
              refine ledgerInv_step db (mkTxnRow db t u sid) _ rfl ?_ hInv
              intro p l
              rw [hE p l]
              show qtyOf (addQtyAll db.inventory t.product_id s (-t.quantity) ++ _) p l = _
              rw [qtyOf_transfer_new db.inventory t.product_id s d t.quantity _
                (by simp [hfind]) (by simp [hdest]) p l]
              simp only [cachedQty]
              ring

/-- `updateInventoryQuantity` on an existing record: sets the quantity, then
logs one `adjustment` transaction carrying the absolute delta. -/
theorem updateInventoryQuantity_existing (db : DB) (pid loc : Ident) (q : Int)
    (u : String) (r : InventoryRecord) (hfind : findInventory db pid loc = some r) :
    updateInventoryQuantity db pid loc q u =
      (dbIns { db with inventory := setQtyAll db.inventory pid loc q }
        { transaction_type := "adjustment", product_id := pid,
          source_location_id := if q - r.quantity < 0 then some loc else none,
          destination_location_id := if q - r.quantity > 0 then some loc else none,
          quantity := ((q - r.quantity).natAbs : Int),
          batch_number := none, expiration_date := none,
          notes := some ("Manual quantity adjustment from " ++
            toString r.quantity ++ " to " ++ toString q) }
        u none, none) := by
  have h1 : updateInventoryQuantity db pid loc q u =
      createInventoryTransaction { db with inventory := setQtyAll db.inventory pid loc q }
        { transaction_type := "adjustment", product_id := pid,
          source_location_id := if q - r.quantity < 0 then some loc else none,
          destination_location_id := if q - r.quantity > 0 then some loc else none,
          quantity := ((q - r.quantity).natAbs : Int),
          batch_number := none, expiration_date := none,
          notes := some ("Manual quantity adjustment from " ++
            toString r.quantity ++ " to " ++ toString q) }
        u none := by
    simp [updateInventoryQuantity, hfind]
  rw [h1]
  exact createInventoryTransaction_nonMovement _ _ _ _ (by simp) (by simp) (by simp)

/-- `updateInventoryQuantity` on a missing record: inserts the record, then
logs one `adjustment` transaction for the initial stocking. -/
theorem updateInventoryQuantity_new (db : DB) (pid loc : Ident) (q : Int) (u : String)
    (hfind : findInventory db pid loc = none) :
    updateInventoryQuantity db pid loc q u =
      (dbIns
        { db with nextId := db.nextId + 1,
                  inventory := db.inventory ++
                    [{ id := ⟨"inv-", db.nextId⟩, product_id := pid, location_id := loc,
                       quantity := q }] }
        { transaction_type := "adjustment", product_id := pid,
          source_location_id := none, destination_location_id := some loc,
          quantity := q, batch_number := none, expiration_date := none,
          notes := some "Initial inventory setup" }
        u none, none) := by
  have h1 : updateInventoryQuantity db pid loc q u =
      createInventoryTransaction
        { db with nextId := db.nextId + 1,
                  inventory := db.inventory ++
                    [{ id := ⟨"inv-", db.nextId⟩, product_id := pid, location_id := loc,
                       quantity := q }] }
        { transaction_type := "adjustment", product_id := pid,
          source_location_id := none, destination_location_id := some loc,
          quantity := q, batch_number := none, expiration_date := none,
          notes := some "Initial inventory setup" }
        u none := by
    simp [updateInventoryQuantity, hfind, freshId]
  rw [h1]
  exact createInventoryTransaction_nonMovement _ _ _ _ (by simp) (by simp) (by simp)

theorem ledgerInv_updateInventoryQuantity (db : DB) (pid loc : Ident) (q : Int)
    (u : String) (hInv : LedgerInv db) :
    LedgerInv (updateInventoryQuantity db pid loc q u).1 := by
  cases hfind : findInventory db pid loc with
  | some r =>
      rw [updateInventoryQuantity_existing db pid loc q u r hfind]
      refine ledgerInv_step db _ _ rfl ?_ hInv
      intro p l
      have hcached : cachedQty db pid loc = r.quantity := qtyOf_eq_of_findRec _ _ _ _ hfind
      by_cases hc : p = pid ∧ l = loc
      · obtain ⟨e1, e2⟩ := hc
        subst e1; subst e2
        show qtyOf (setQtyAll db.inventory p l q) p l = _
        rw [qtyOf_setQtyAll_self _ _ _ _ (by simp [show findRec db.inventory p l = some r from hfind])]
        rw [hcached]
        rcases lt_trichotomy (q - r.quantity) 0 with hlt | heq | hgt
        · have hngt : ¬ (q - r.quantity > 0) := by omega
          simp only [txnEffect, mkTxnRow, if_pos hlt, if_neg hngt]
          simp
          rw [abs_of_neg hlt]
          ring
        · have hnlt : ¬ (q - r.quantity < 0) := by omega
          have hngt : ¬ (q - r.quantity > 0) := by omega
          simp only [txnEffect, mkTxnRow, if_neg hnlt, if_neg hngt]
          simp
          omega
        · have hnlt : ¬ (q - r.quantity < 0) := by omega
          simp only [txnEffect, mkTxnRow, if_neg hnlt, if_pos hgt]
          simp
          rw [abs_of_pos hgt]
          ring
      · show qtyOf (setQtyAll db.inventory pid loc q) p l = _
        rw [qtyOf_setQtyAll_other _ _ _ _ _ _ hc]
        have hc' : ¬ (pid = p ∧ loc = l) := fun hh => hc ⟨hh.1.symm, hh.2.symm⟩
        have hE0 : txnEffect p l (mkTxnRow { db with inventory := setQtyAll db.inventory pid loc q }
            { transaction_type := "adjustment", product_id := pid,
              source_location_id := if q - r.quantity < 0 then some loc else none,
              destination_location_id := if q - r.quantity > 0 then some loc else none,
              quantity := ((q - r.quantity).natAbs : Int),
              batch_number := none, expiration_date := none,
              notes := some ("Manual quantity adjustment from " ++
                toString r.quantity ++ " to " ++ toString q) } u none) = 0 := by
          simp only [txnEffect, mkTxnRow]
          have k1 : ¬ (pid = p ∧ r.quantity < q ∧ loc = l) := fun hh => hc' ⟨hh.1, hh.2.2⟩
          have k2 : ¬ (pid = p ∧ q < r.quantity ∧ loc = l) := fun hh => hc' ⟨hh.1, hh.2.2⟩
          simp [k1, k2]
        rw [hE0, add_zero]
        rfl
  | none =>
      rw [updateInventoryQuantity_new db pid loc q u hfind]
      refine ledgerInv_step db _ _ rfl ?_ hInv
      intro p l
      by_cases hc : p = pid ∧ l = loc
      · obtain ⟨e1, e2⟩ := hc
        subst e1; subst e2
        show qtyOf (db.inventory ++ _) p l = _
        rw [qtyOf_append_single_self _ _ _ _ hfind rfl rfl]
        have hzero : cachedQty db p l = 0 := by
          simp [cachedQty, qtyOf, show findRec db.inventory p l = none from hfind]
        rw [hzero]
        simp [txnEffect, mkTxnRow]
      · show qtyOf (db.inventory ++ _) p l = _
        rw [qtyOf_append_single_other _ _ _ _ (fun hh => hc ⟨hh.1.symm, hh.2.symm⟩)]
        have hc' : ¬ (pid = p ∧ loc = l) := fun hh => hc ⟨hh.1.symm, hh.2.symm⟩
        simp [txnEffect, mkTxnRow, hc', cachedQty]

/-! ### Invariant preservation across the operation alphabet -/

theorem ledgerInv_createProduct (db : DB) (pd : ProductData) (u : String)
    (hInv : LedgerInv db) : LedgerInv (createProduct db pd u).1 := by
  refine ledgerInv_of_frame db _ ?_ ?_ hInv
  all_goals
    cases hdup : (if truthyStr pd.barcode then
        (db.products.find? (fun p => p.barcode == pd.barcode)).isSome else false) <;>
      cases hconf : barcodeConflict db pd.barcode <;>
        simp [createProduct, hdup, hconf, freshId]

theorem ledgerInv_createSession (db : DB) (sd : SessionData) (u : String)
    (hInv : LedgerInv db) : LedgerInv (createSession db sd u).1 := by
  refine ledgerInv_of_frame db _ ?_ ?_ hInv
  all_goals simp [createSession, freshId]

theorem ledgerInv_completeSession (db : DB) (sid : Ident) (u : String)
    (hInv : LedgerInv db) : LedgerInv (completeSession db sid u).1 := by
  refine ledgerInv_of_frame db _ ?_ ?_ hInv
  all_goals
    cases hsess : getSessionById db sid with
    | none => simp [completeSession, hsess]
    | some sess =>
        cases hstat : sess.status != "in_progress" <;>
          simp [completeSession, hsess, hstat]

theorem ledgerInv_addProductToSession (db : DB) (sid : Ident) (td : SessionTxnData)
    (u : String) (hInv : LedgerInv db)
    (hsucc : (addProductToSession db sid td u).2 = none) :
    LedgerInv (addProductToSession db sid td u).1 := by
  unfold addProductToSession at hsucc ⊢
  cases hsess : getSessionById db sid with
  | none => exact hInv
  | some sess =>
      simp only [hsess] at hsucc ⊢
      cases hstat : sess.status != "in_progress" with
      | true => simp only [hstat, if_true]; exact hInv
      | false =>
          simp only [hstat, Bool.false_eq_true, if_false] at hsucc ⊢
          refine ledgerInv_createInventoryTransaction _ _ _ _ ?_ hInv hsucc
          by_cases hty : (sess.session_type == "check_in") = true
          · left
            refine ⟨by simp [hty], by simp [hty], by simp [hty]⟩
          · right; left
            refine ⟨by simp [hty], by simp [hty], by simp [hty]⟩

/-- The operations of the consistency claim: any engine operation except a
session cancellation, with `recordTransaction` restricted to the spec's
three movement payload shapes. -/
def allowedOp : Op → Prop
  | .recordTxn t _ _ => wellFormedTxn t
  | .cancelSess _ _ => False
  | _ => True

theorem ledgerInv_applyOp (db : DB) (op : Op) (hallow : allowedOp op)
    (hInv : LedgerInv db) (hsucc : (applyOp db op).2 = none) :
    LedgerInv (applyOp db op).1 := by
  cases op with
  | recordTxn t u sid => exact ledgerInv_createInventoryTransaction db t u sid hallow hInv hsucc
  | setQuantity p l q u => exact ledgerInv_updateInventoryQuantity db p l q u hInv
  | newProduct pd u => exact ledgerInv_createProduct db pd u hInv
  | newSession sd u => exact ledgerInv_createSession db sd u hInv
  | addToSession sid td u => exact ledgerInv_addProductToSession db sid td u hInv hsucc
  | completeSess sid u => exact ledgerInv_completeSession db sid u hInv
  | cancelSess sid u => exact hallow.elim

theorem ledgerInv_runOps (ops : List Op) (db db' : DB) (hInv : LedgerInv db)
    (hallow : ∀ op ∈ ops, allowedOp op) (hrun : runOps db ops = some db') :
    LedgerInv db' := by
  induction ops generalizing db with
  | nil =>
      simp only [runOps, Option.some.injEq] at hrun
      subst hrun
      exact hInv
  | cons op rest ih =>
      simp only [runOps] at hrun
      cases happ : applyOp db op with
      | mk db1 e =>
          cases e with
          | none =>
              rw [happ] at hrun
              have hstep := ledgerInv_applyOp db op (hallow op (by simp)) hInv
                (by rw [happ])
              rw [happ] at hstep
              exact ih db1 hstep (fun o ho => hallow o (by simp [ho])) hrun
          | some err =>
              rw [happ] at hrun
              simp at hrun

/-! ### Session cancellation: reversal effects and frames -/

/-- Signed effect on pair (p, l) of reversing one ledger row the way
`cancelSession` does: a `check_in` row subtracts its quantity from its
destination, a `check_out` row adds its quantity back to its source, any
other row is not reversed. -/
def reversalEffect (p l : Ident) (t : Txn) : Int :=
  if t.transaction_type == "check_in" then
    (if t.product_id == p && t.destination_location_id == some l then -t.quantity else 0)
  else if t.transaction_type == "check_out" then
    (if t.product_id == p && t.source_location_id == some l then t.quantity else 0)
  else 0

/-- The (product, location) records named by a row's location columns exist
(so the reversal `UPDATE`s actually hit a row). -/
def txnTargetExists (inv : List InventoryRecord) (t : Txn) : Bool :=
  (match t.destination_location_id with
   | some d => (findRec inv t.product_id d).isSome
   | none => true)
  && (match t.source_location_id with
      | some s => (findRec inv t.product_id s).isSome
      | none => true)

theorem findRec_addQtyOpt_isSome (inv : List InventoryRecord) (pid : Ident)
    (lo : Option Ident) (δ : Int) (p l : Ident) :
    (findRec (addQtyOpt inv pid lo δ) p l).isSome = (findRec inv p l).isSome := by
  cases lo with
  | none => rw [addQtyOpt_none]
  | some l₀ =>
      rw [addQtyOpt_some, findRec_addQtyAll]
      cases findRec inv p l <;> simp

theorem findRec_reverseTxn_isSome (inv : List InventoryRecord) (t : Txn) (p l : Ident) :
    (findRec (reverseTxn inv t) p l).isSome = (findRec inv p l).isSome := by
  unfold reverseTxn
  cases h1 : (t.transaction_type == "check_in") with
  | true => simp [findRec_addQtyOpt_isSome]
  | false =>
      cases h2 : (t.transaction_type == "check_out") with
      | true => simp [findRec_addQtyOpt_isSome]
      | false => simp

theorem txnTargetExists_reverseTxn (inv : List InventoryRecord) (t t' : Txn)
    (h : txnTargetExists inv t' = true) : txnTargetExists (reverseTxn inv t) t' = true := by
  unfold txnTargetExists at h ⊢
  rw [Bool.and_eq_true] at h ⊢
  refine ⟨?_, ?_⟩
  · cases hdl : t'.destination_location_id with
    | none => rfl
    | some d =>
        rw [hdl] at h
        show (findRec (reverseTxn inv t) t'.product_id d).isSome = true
        rw [findRec_reverseTxn_isSome]
        exact h.1
  · cases hsl : t'.source_location_id with
    | none => rfl
    | some s0 =>
        rw [hsl] at h
        show (findRec (reverseTxn inv t) t'.product_id s0).isSome = true
        rw [findRec_reverseTxn_isSome]
        exact h.2

theorem qtyOf_addQtyOpt (inv : List InventoryRecord) (pid : Ident) (lo : Option Ident)
    (δ : Int) (p l : Ident)
    (hex : ∀ l₀, lo = some l₀ → (findRec inv pid l₀).isSome) :
    qtyOf (addQtyOpt inv pid lo δ) p l =
      qtyOf inv p l + (if pid == p && lo == some l then δ else 0) := by
  cases lo with
  | none =>
      rw [addQtyOpt_none]
      simp
  | some l₀ =>
      rw [addQtyOpt_some]
      by_cases hc : p = pid ∧ l = l₀
      · obtain ⟨e1, e2⟩ := hc
        subst e1; subst e2
        rw [qtyOf_addQtyAll_self _ _ _ _ (hex l (rfl))]
        simp
      · rw [qtyOf_addQtyAll_other _ _ _ _ _ _ hc]
        have hcb : ¬ (pid == p && (some l₀ : Option Ident) == some l) = true := by
          simp only [Bool.and_eq_true, beq_iff_eq, Option.some.injEq]
          rintro ⟨e1, e2⟩
          exact hc ⟨e1.symm, e2.symm⟩
        simp only [hcb, Bool.false_eq_true, if_false, add_zero]

theorem qtyOf_reverseTxn (inv : List InventoryRecord) (t : Txn) (p l : Ident)
    (hex : txnTargetExists inv t = true) :
    qtyOf (reverseTxn inv t) p l = qtyOf inv p l + reversalEffect p l t := by
  unfold txnTargetExists at hex
  rw [Bool.and_eq_true] at hex
  unfold reverseTxn reversalEffect
  cases h1 : (t.transaction_type == "check_in") with
  | true =>
      simp only [if_true]
      rw [qtyOf_addQtyOpt]
      intro l₀ hl₀
      rw [hl₀] at hex
      exact hex.1
  | false =>
      cases h2 : (t.transaction_type == "check_out") with
      | true =>
          simp only [Bool.false_eq_true, if_false, if_true]
          rw [qtyOf_addQtyOpt]
          intro l₀ hl₀
          rw [hl₀] at hex
          exact hex.2
      | false =>
          simp

theorem qtyOf_foldl_reverseTxn (txs : List Txn) (inv : List InventoryRecord)
    (hex : ∀ t ∈ txs, txnTargetExists inv t = true) (p l : Ident) :
    qtyOf (txs.foldl reverseTxn inv) p l =
      qtyOf inv p l + (txs.map (reversalEffect p l)).sum := by
  induction txs generalizing inv with
  | nil => simp
  | cons t ts ih =>
      simp only [List.foldl_cons, List.map_cons, List.sum_cons]
      rw [ih (reverseTxn inv t)
        (fun t' ht' => txnTargetExists_reverseTxn inv t t' (hex t' (by simp [ht']))),
        qtyOf_reverseTxn inv t p l (hex t (by simp))]
      ring

theorem stripKeys_addQtyOpt (inv : List InventoryRecord) (pid : Ident)
    (lo : Option Ident) (δ : Int) :
    (addQtyOpt inv pid lo δ).map (fun r => (r.id, r.product_id, r.location_id)) =
      inv.map (fun r => (r.id, r.product_id, r.location_id)) := by
  unfold addQtyOpt
  rw [List.map_map]
  congr 1
  funext r
  by_cases h : (r.product_id == pid && lo == some r.location_id) = true <;>
    simp [h, Function.comp]

theorem stripKeys_reverseTxn (inv : List InventoryRecord) (t : Txn) :
    (reverseTxn inv t).map (fun r => (r.id, r.product_id, r.location_id)) =
      inv.map (fun r => (r.id, r.product_id, r.location_id)) := by
  unfold reverseTxn
  cases h1 : (t.transaction_type == "check_in") with
  | true => simp [stripKeys_addQtyOpt]
  | false =>
      cases h2 : (t.transaction_type == "check_out") with
      | true => simp [stripKeys_addQtyOpt]
      | false => simp

theorem stripKeys_foldl_reverseTxn (txs : List Txn) (inv : List InventoryRecord) :
    (txs.foldl reverseTxn inv).map (fun r => (r.id, r.product_id, r.location_id)) =
      inv.map (fun r => (r.id, r.product_id, r.location_id)) := by
  induction txs generalizing inv with
  | nil => rfl
  | cons t ts ih => rw [List.foldl_cons, ih, stripKeys_reverseTxn]

/-! ### Session lookup lemmas -/

theorem find?_sessions_map_idFixed (f : Session → Session)
    (hf : ∀ s, (f s).id = s.id) (ss : List Session) (sid : Ident) :
    (ss.map f).find? (fun s => s.id == sid) = (ss.find? (fun s => s.id == sid)).map f := by
  induction ss with
  | nil => rfl
  | cons x xs ih =>
      simp only [List.map_cons, List.find?_cons]
      rw [hf x]
      cases h : (x.id == sid) <;> simp [ih]

theorem find?_sessions_of_mem_nodup (ss : List Session) (s : Session) (hs : s ∈ ss)
    (hnd : (ss.map Session.id).Nodup) : ss.find? (fun x => x.id == s.id) = some s := by
  induction ss with
  | nil => cases hs
  | cons x xs ih =>
      rw [List.map_cons, List.nodup_cons] at hnd
      rcases List.mem_cons.mp hs with h | h
      · subst h
        simp [List.find?_cons]
      · have hne : (x.id == s.id) = false := by
          rw [beq_eq_false_iff_ne]
          intro hid
          exact hnd.1 (hid ▸ List.mem_map_of_mem Session.id h)
        simp only [List.find?_cons, hne]
        exact ih h hnd.2

/-! ### Characterizations of the session operations -/

theorem completeSession_terminal (db : DB) (sid : Ident) (u : String) (s : Session)
    (hsess : getSessionById db sid = some s) (hterm : s.status ≠ "in_progress") :
    completeSession db sid u = (db, some Err.sessionNotInProgress) := by
  simp [completeSession, hsess, hterm]

theorem cancelSession_terminal (db : DB) (sid : Ident) (u : String) (s : Session)
    (hsess : getSessionById db sid = some s) (hterm : s.status ≠ "in_progress") :
    cancelSession db sid u = (db, some Err.sessionNotInProgress) := by
  simp [cancelSession, hsess, hterm]

theorem addProductToSession_terminal (db : DB) (sid : Ident) (td : SessionTxnData)
    (u : String) (s : Session)
    (hsess : getSessionById db sid = some s) (hterm : s.status ≠ "in_progress") :
    addProductToSession db sid td u = (db, some Err.cannotAddToSession) := by
  simp [addProductToSession, hsess, hterm]

theorem cancelSession_success (db : DB) (sid : Ident) (u : String) (s : Session)
    (hsess : getSessionById db sid = some s) (hstat : s.status = "in_progress") :
    cancelSession db sid u =
      ({ db with
          inventory := (getSessionTransactions db sid).foldl reverseTxn db.inventory,
          sessions := db.sessions.map (fun x =>
            if x.id == sid then { x with status := "cancelled" } else x) }, none) := by
  simp [cancelSession, hsess, hstat]

theorem completeSession_success (db : DB) (sid : Ident) (u : String) (s : Session)
    (hsess : getSessionById db sid = some s) (hstat : s.status = "in_progress") :
    completeSession db sid u =
      ({ db with
          sessions := db.sessions.map (fun x =>
            if x.id == sid then { x with status := "completed" } else x) }, none) := by
  simp [completeSession, hsess, hstat]

/-! ### Which operations leave the `sessions` table unchanged -/

theorem sessions_updateInventoryForCheckIn (db : DB) (pid d : Ident) (q : Int) :
    (updateInventoryForCheckIn db pid d q).sessions = db.sessions := by
  unfold updateInventoryForCheckIn
  cases findInventory db pid d <;> simp [freshId]

theorem sessions_updateInventoryForCheckOut (db : DB) (pid s0 : Ident) (q : Int) :
    ((updateInventoryForCheckOut db pid s0 q).1).sessions = db.sessions := by
  unfold updateInventoryForCheckOut
  cases findInventory db pid s0 with
  | none => rfl
  | some r => by_cases h : r.quantity < q <;> simp [h]

theorem sessions_updateInventoryForTransfer (db : DB) (pid s0 d : Ident) (q : Int) :
    ((updateInventoryForTransfer db pid s0 d q).1).sessions = db.sessions := by
  unfold updateInventoryForTransfer
  cases findInventory db pid s0 with
  | none => rfl
  | some r =>
      by_cases h : r.quantity < q
      · simp [h]
      · simp only [if_neg h]
        cases hd2 : findInventory { db with inventory := addQtyAll db.inventory pid s0 (-q) }
            pid d <;> simp [hd2, freshId]

theorem sessions_createInventoryTransaction (db : DB) (t : TxnData) (u : String)
    (sid : Option Ident) :
    ((createInventoryTransaction db t u sid).1).sessions = db.sessions := by
  unfold createInventoryTransaction
  cases h1 : (t.transaction_type == "check_in") with
  | true =>
      cases t.destination_location_id <;>
        simp [sessions_updateInventoryForCheckIn, dbIns]
  | false =>
      cases h2 : (t.transaction_type == "check_out") with
      | true =>
          cases t.source_location_id <;>
            simp [sessions_updateInventoryForCheckOut, dbIns]
      | false =>
          cases h3 : (t.transaction_type == "transfer") with
          | true =>
              cases t.source_location_id with
              | none => simp [dbIns]
              | some s0 =>
                  cases t.destination_location_id <;>
                    simp [sessions_updateInventoryForTransfer, dbIns]
          | false => simp [dbIns]

theorem sessions_updateInventoryQuantity (db : DB) (pid loc : Ident) (q : Int)
    (u : String) : ((updateInventoryQuantity db pid loc q u).1).sessions = db.sessions := by
  cases hfind : findInventory db pid loc with
  | some r => rw [updateInventoryQuantity_existing db pid loc q u r hfind]; rfl
  | none => rw [updateInventoryQuantity_new db pid loc q u hfind]; rfl

theorem sessions_createProduct (db : DB) (pd : ProductData) (u : String) :
    ((createProduct db pd u).1).sessions = db.sessions := by
  cases hdup : (if truthyStr pd.barcode then
      (db.products.find? (fun p => p.barcode == pd.barcode)).isSome else false) <;>
    cases hconf : barcodeConflict db pd.barcode <;>
      simp [createProduct, hdup, hconf, freshId]

/-- A session row whose status is terminal survives any engine operation
unchanged (given globally unique session ids, which `generateId` provides). -/
theorem mem_sessions_applyOp (db : DB) (s : Session) (hs : s ∈ db.sessions)
    (hterm : s.status ≠ "in_progress")
    (hnd : (db.sessions.map Session.id).Nodup) (op : Op) :
    s ∈ ((applyOp db op).1).sessions := by
  cases op with
  | recordTxn t u sid =>
      show s ∈ ((createInventoryTransaction db t u sid).1).sessions
      rw [sessions_createInventoryTransaction]
      exact hs
  | setQuantity p l q u =>
      show s ∈ ((updateInventoryQuantity db p l q u).1).sessions
      rw [sessions_updateInventoryQuantity]
      exact hs
  | newProduct pd u =>
      show s ∈ ((createProduct db pd u).1).sessions
      rw [sessions_createProduct]
      exact hs
  | newSession sd u =>
      show s ∈ db.sessions ++ [_]
      exact List.mem_append_left _ hs
  | addToSession sid td u =>
      show s ∈ ((addProductToSession db sid td u).1).sessions
      unfold addProductToSession
      cases hsess : getSessionById db sid with
      | none => exact hs
      | some sess =>
          cases hstat : (sess.status != "in_progress") with
          | true => simp only [hstat, if_true]; exact hs
          | false =>
              simp only [hstat, Bool.false_eq_true, if_false]
              rw [sessions_createInventoryTransaction]
              exact hs
  | completeSess sid u =>
      show s ∈ ((completeSession db sid u).1).sessions
      unfold completeSession
      cases hsess : getSessionById db sid with
      | none => exact hs
      | some sess =>
          cases hstat : (sess.status != "in_progress") with
          | true => simp only [hstat, if_true]; exact hs
          | false =>
              have hsess_in : sess.status = "in_progress" := by simpa using hstat
              simp only [hstat, Bool.false_eq_true, if_false]
              have hf : (if s.id == sid then { s with status := "completed" } else s) = s := by
                by_cases hid : (s.id == sid) = true
                · exfalso
                  have hsid : s.id = sid := by simpa using hid
                  have hfind := find?_sessions_of_mem_nodup db.sessions s hs hnd
                  rw [hsid] at hfind
                  have h0 : getSessionById db sid = some s := hfind
                  rw [hsess] at h0
                  injection h0 with h0
                  exact hterm (h0 ▸ hsess_in)
                · simp [hid]
              exact hf ▸ List.mem_map_of_mem _ hs
  | cancelSess sid u =>
      show s ∈ ((cancelSession db sid u).1).sessions
      unfold cancelSession
      cases hsess : getSessionById db sid with
      | none => exact hs
      | some sess =>
          cases hstat : (sess.status != "in_progress") with
          | true => simp only [hstat, if_true]; exact hs
          | false =>
              have hsess_in : sess.status = "in_progress" := by simpa using hstat
              simp only [hstat, Bool.false_eq_true, if_false]
              have hf : (if s.id == sid then { s with status := "cancelled" } else s) = s := by
                by_cases hid : (s.id == sid) = true
                · exfalso
                  have hsid : s.id = sid := by simpa using hid
                  have hfind := find?_sessions_of_mem_nodup db.sessions s hs hnd
                  rw [hsid] at hfind
                  have h0 : getSessionById db sid = some s := hfind
                  rw [hsess] at h0
                  injection h0 with h0
                  exact hterm (h0 ▸ hsess_in)
                · simp [hid]
              exact hf ▸ List.mem_map_of_mem _ hs

/-! ### Sorting and the low-stock query -/

theorem mem_insertSorted (le : α → α → Bool) (x y : α) (l : List α) :
    y ∈ insertSorted le x l ↔ y = x ∨ y ∈ l := by
  induction l with
  | nil => simp [insertSorted]
  | cons z zs ih =>
      unfold insertSorted
      by_cases h : le x z = true
      · simp [h]
      · simp only [h, Bool.false_eq_true, if_false, List.mem_cons, ih]
        tauto

theorem mem_sortBy (le : α → α → Bool) (l : List α) (y : α) :
    y ∈ sortBy le l ↔ y ∈ l := by
  induction l with
  | nil => simp [sortBy]
  | cons z zs ih =>
      unfold sortBy
      rw [mem_insertSorted]
      simp [ih]

theorem length_insertSorted (le : α → α → Bool) (x : α) (l : List α) :
    (insertSorted le x l).length = l.length + 1 := by
  induction l with
  | nil => rfl
  | cons z zs ih =>
      unfold insertSorted
      by_cases h : le x z = true <;> simp [h, ih]

theorem length_sortBy (le : α → α → Bool) (l : List α) :
    (sortBy le l).length = l.length := by
  induction l with
  | nil => rfl
  | cons z zs ih =>
      unfold sortBy
      rw [length_insertSorted, ih, List.length_cons]

/-- The rows the low-stock listing is about: joined rows of active products
whose cached quantity is at or below the product's minimum-stock threshold. -/
def lowRows (db : DB) : List InventoryRow :=
  (db.inventory.filterMap (rowOf db)).filter
    (fun row => row.product.is_active && decide (row.record.quantity ≤ row.product.minimum_stock))

theorem matchesFilters_lowOnly (f : InventoryFilters) (row : InventoryRow)
    (hloc : f.locationId = none) (hcat : f.categoryId = none)
    (hsearch : f.search = none) (hlow : f.lowStock = true) :
    matchesFilters f row =
      (row.product.is_active && decide (row.record.quantity ≤ row.product.minimum_stock)) := by
  simp [matchesFilters, hloc, hcat, hsearch, hlow]

theorem getInventory_lowOnly (db : DB) (f : InventoryFilters)
    (hloc : f.locationId = none) (hcat : f.categoryId = none)
    (hsearch : f.search = none) (hlow : f.lowStock = true)
    (hoff : f.offset = 0) (hlim : (lowRows db).length ≤ f.limit) :
    ∀ row, row ∈ getInventory db f ↔ row ∈ lowRows db := by
  intro row
  unfold getInventory
  rw [List.filter_congr (fun r _ => matchesFilters_lowOnly f r hloc hcat hsearch hlow)]
  rw [hoff, List.drop_zero]
  rw [List.take_of_length_le (by rw [length_sortBy]; exact hlim)]
  exact mem_sortBy _ _ _

/-- The summary's low-stock count equals the number of low-stock joined rows,
provided every inventory row's location resolves (the listing joins
`locations`, the count does not). -/
theorem lowCount_aux (db : DB) (invList : List InventoryRecord)
    (hlocs : ∀ r ∈ invList, (db.locations.find? (fun l => l.id == r.location_id)).isSome) :
    ((invList.filterMap (fun r =>
        (db.products.find? (fun p => p.id == r.product_id)).bind (fun p =>
          if p.is_active then some (r, p) else none))).filter
      (fun x => decide (x.1.quantity ≤ x.2.minimum_stock))).length =
    ((invList.filterMap (rowOf db)).filter
      (fun row => row.product.is_active &&
        decide (row.record.quantity ≤ row.product.minimum_stock))).length := by
  induction invList with
  | nil => rfl
  | cons r rs ih =>
      have hloc_r : (db.locations.find? (fun l => l.id == r.location_id)).isSome :=
        hlocs r (by simp)
      have ih' := ih (fun x hx => hlocs x (by simp [hx]))
      rcases Option.isSome_iff_exists.mp hloc_r with ⟨lrow, hlrow⟩
      cases hprod : db.products.find? (fun p => p.id == r.product_id) with
      | none => simpa [List.filterMap_cons, rowOf, hprod] using ih'
      | some p =>
          cases hact : p.is_active with
          | false => simpa [List.filterMap_cons, rowOf, hprod, hlrow, hact] using ih'
          | true =>
              cases hq : decide (r.quantity ≤ p.minimum_stock) with
              | false => simpa [List.filterMap_cons, rowOf, hprod, hlrow, hact, hq] using ih'
              | true => simpa [List.filterMap_cons, rowOf, hprod, hlrow, hact, hq] using ih'

/-! ## Claim theorems

Concrete fixtures used by witnesses and counterexamples. -/

/-- A store holding one inventory record of quantity 10 for product
`prod-0` at location `loc-0`, and nothing else. -/
def fixtureStock10 : DB :=
  { products := [], categories := [], locations := [],
    inventory := [{ id := ⟨"inv-", 0⟩, product_id := ⟨"prod-", 0⟩,
                    location_id := ⟨"loc-", 0⟩, quantity := 10 }],
    transactions := [], sessions := [], nextId := 1 }

/-- C1 (amended): a `check_out` or `transfer` movement whose source record
holds less than the requested quantity fails with an `InsufficientStock`
condition and mutates no inventory quantity — but the transaction row has
already been inserted into the ledger, because `createInventoryTransaction`
performs the `INSERT` before the stock check (write-then-validate, not
validate-before-write). -/
theorem C1_insufficient_stock_rejected_but_row_written (db : DB) (t : TxnData)
    (u : String) (sid : Option Ident) (s : Ident) (r : InventoryRecord)
    (hs : t.source_location_id = some s)
    (hfind : findInventory db t.product_id s = some r)
    (hlt : r.quantity < t.quantity)
    (htype : t.transaction_type = "check_out" ∨
      (t.transaction_type = "transfer" ∧ t.destination_location_id.isSome)) :
    createInventoryTransaction db t u sid =
      (dbIns db t u sid,
       some (if t.transaction_type = "transfer" then Err.insufficientForTransfer
             else Err.insufficientQuantity))
    ∧ Err.isInsufficientStock (if t.transaction_type = "transfer"
        then Err.insufficientForTransfer else Err.insufficientQuantity) = true
    ∧ (dbIns db t u sid).inventory = db.inventory
    ∧ (dbIns db t u sid).transactions = db.transactions ++ [mkTxnRow db t u sid] := by
  rcases htype with h | ⟨h, hd⟩
  · have hnt : ¬ (t.transaction_type = "transfer") := by rw [h]; simp
    refine ⟨?_, by simp [hnt, Err.isInsufficientStock], rfl, rfl⟩
    rw [createInventoryTransaction_checkOut db t u sid s h hs]
    simp only [if_neg hnt]
    have hfind' : findRec db.inventory t.product_id s = some r := hfind
    simp [updateInventoryForCheckOut, findInventory, inventory_dbIns, hfind', hlt]
  · rcases Option.isSome_iff_exists.mp hd with ⟨d, hdd⟩
    refine ⟨?_, by simp [h, Err.isInsufficientStock], rfl, rfl⟩
    rw [createInventoryTransaction_transfer db t u sid s d h hs hdd]
    simp only [if_pos h]
    have hfind' : findRec db.inventory t.product_id s = some r := hfind
    simp [updateInventoryForTransfer, findInventory, inventory_dbIns, hfind', hlt]

/-- Witness for C1: a check-out of 15 against a stock of 10 fails with
`InsufficientStock`, leaves the quantity at 10, yet appends the ledger row. -/
theorem C1_insufficient_stock_rejected_but_row_written_witness :
    createInventoryTransaction fixtureStock10
        { transaction_type := "check_out", product_id := ⟨"prod-", 0⟩,
          source_location_id := some ⟨"loc-", 0⟩, destination_location_id := none,
          quantity := 15, batch_number := none, expiration_date := none, notes := none }
        "u" none =
      (dbIns fixtureStock10
        { transaction_type := "check_out", product_id := ⟨"prod-", 0⟩,
          source_location_id := some ⟨"loc-", 0⟩, destination_location_id := none,
          quantity := 15, batch_number := none, expiration_date := none, notes := none }
        "u" none,
       some (if ("check_out" : String) = "transfer" then Err.insufficientForTransfer
             else Err.insufficientQuantity)) :=
  (C1_insufficient_stock_rejected_but_row_written fixtureStock10
    { transaction_type := "check_out", product_id := ⟨"prod-", 0⟩,
      source_location_id := some ⟨"loc-", 0⟩, destination_location_id := none,
      quantity := 15, batch_number := none, expiration_date := none, notes := none }
    "u" none ⟨"loc-", 0⟩
    { id := ⟨"inv-", 0⟩, product_id := ⟨"prod-", 0⟩, location_id := ⟨"loc-", 0⟩,
      quantity := 10 }
    rfl rfl (by decide) (Or.inl rfl)).1

/-- Counterexample to C1 as stated: on stock 10, a check-out of 15 fails with
`InsufficientStock` and the quantity stays 10, but a transaction row *is*
written to the ledger (the ledger grows from 0 to 1 rows). -/
theorem C1_counterexample_row_is_written :
    ((createInventoryTransaction fixtureStock10
        { transaction_type := "check_out", product_id := ⟨"prod-", 0⟩,
          source_location_id := some ⟨"loc-", 0⟩, destination_location_id := none,
          quantity := 15, batch_number := none, expiration_date := none, notes := none }
        "u" none).2 = some Err.insufficientQuantity)
    ∧ ((createInventoryTransaction fixtureStock10
        { transaction_type := "check_out", product_id := ⟨"prod-", 0⟩,
          source_location_id := some ⟨"loc-", 0⟩, destination_location_id := none,
          quantity := 15, batch_number := none, expiration_date := none, notes := none }
        "u" none).1.transactions.length = 1)
    ∧ fixtureStock10.transactions.length = 0
    ∧ cachedQty (createInventoryTransaction fixtureStock10
        { transaction_type := "check_out", product_id := ⟨"prod-", 0⟩,
          source_location_id := some ⟨"loc-", 0⟩, destination_location_id := none,
          quantity := 15, batch_number := none, expiration_date := none, notes := none }
        "u" none).1 ⟨"prod-", 0⟩ ⟨"loc-", 0⟩ = 10 := by
  refine ⟨rfl, rfl, rfl, rfl⟩

/-- C5 (code bug): the adjustment path `updateInventoryQuantity` performs no
non-negativity validation: setting the quantity of a record holding 10 to
-15 succeeds and stores the negative quantity in the `InventoryRecord`
cache, contradicting the non-negative-quantity invariant (the repository's
own test expects this call to throw `'Insufficient inventory'`). -/
theorem C5_adjustment_accepts_negative_quantity :
    ((updateInventoryQuantity fixtureStock10 ⟨"prod-", 0⟩ ⟨"loc-", 0⟩ (-15) "u").2 = none)
    ∧ cachedQty (updateInventoryQuantity fixtureStock10 ⟨"prod-", 0⟩ ⟨"loc-", 0⟩
        (-15) "u").1 ⟨"prod-", 0⟩ ⟨"loc-", 0⟩ = -15 := by
  refine ⟨rfl, rfl⟩

/-- C6 (amended): `recordTransaction` performs no quantity validation at
all: a call with `quantity ≤ 0` is not rejected — the ledger row is
inserted, and for a `check_in` movement the destination quantity changes by
the (non-positive) quantity. -/
theorem C6_nonpositive_quantity_not_rejected (db : DB) (t : TxnData) (u : String)
    (sid : Option Ident) (d : Ident)
    (hq : t.quantity ≤ 0) (htype : t.transaction_type = "check_in")
    (hd : t.destination_location_id = some d) :
    ((createInventoryTransaction db t u sid).2 = none)
    ∧ (createInventoryTransaction db t u sid).1.transactions
        = db.transactions ++ [mkTxnRow db t u sid]
    ∧ cachedQty (createInventoryTransaction db t u sid).1 t.product_id d
        = cachedQty db t.product_id d + t.quantity := by
  rw [createInventoryTransaction_checkIn db t u sid d htype hd]
  refine ⟨rfl, ?_, ?_⟩
  · rw [transactions_updateInventoryForCheckIn]
    rfl
  · rw [cachedQty_updateInventoryForCheckIn, cachedQty_dbIns]
    simp

/-- Witness for C6: a check-in of quantity 0 (≤ 0) on existing stock 10 is
accepted (no error), appends a ledger row, and leaves the quantity at 10+0. -/
theorem C6_nonpositive_quantity_not_rejected_witness :
    ((createInventoryTransaction fixtureStock10
        { transaction_type := "check_in", product_id := ⟨"prod-", 0⟩,
          source_location_id := none, destination_location_id := some ⟨"loc-", 0⟩,
          quantity := 0, batch_number := none, expiration_date := none, notes := none }
        "u" none).2 = none)
    ∧ (createInventoryTransaction fixtureStock10
        { transaction_type := "check_in", product_id := ⟨"prod-", 0⟩,
          source_location_id := none, destination_location_id := some ⟨"loc-", 0⟩,
          quantity := 0, batch_number := none, expiration_date := none, notes := none }
        "u" none).1.transactions
        = fixtureStock10.transactions ++ [mkTxnRow fixtureStock10
        { transaction_type := "check_in", product_id := ⟨"prod-", 0⟩,
          source_location_id := none, destination_location_id := some ⟨"loc-", 0⟩,
          quantity := 0, batch_number := none, expiration_date := none, notes := none }
        "u" none] :=
  have h := C6_nonpositive_quantity_not_rejected fixtureStock10
    { transaction_type := "check_in", product_id := ⟨"prod-", 0⟩,
      source_location_id := none, destination_location_id := some ⟨"loc-", 0⟩,
      quantity := 0, batch_number := none, expiration_date := none, notes := none }
    "u" none ⟨"loc-", 0⟩ (by decide) rfl rfl
  ⟨h.1, h.2.1⟩

/-- Counterexample to C6 as stated: a `recordTransaction` call with
quantity 0 (≤ 0) is not rejected and a ledger row is written. -/
theorem C6_counterexample_zero_quantity_accepted :
    ((createInventoryTransaction fixtureStock10
        { transaction_type := "check_in", product_id := ⟨"prod-", 0⟩,
          source_location_id := none, destination_location_id := some ⟨"loc-", 0⟩,
          quantity := 0, batch_number := none, expiration_date := none, notes := none }
        "u" none).2 = none)
    ∧ ((createInventoryTransaction fixtureStock10
        { transaction_type := "check_in", product_id := ⟨"prod-", 0⟩,
          source_location_id := none, destination_location_id := some ⟨"loc-", 0⟩,
          quantity := 0, batch_number := none, expiration_date := none, notes := none }
        "u" none).1.transactions.length = 1) := by
  refine ⟨rfl, rfl⟩

/-- C2: after every all-successful sequence of engine operations — with
`recordTransaction` in its three movement shapes, `setQuantity`
(`updateInventoryQuantity`), and no session cancellation — every
(product, location) pair's cached `InventoryRecord` quantity equals the
signed sum of the `InventoryTransaction` ledger rows affecting that pair. -/
theorem C2_cache_equals_signed_ledger_sum (ops : List Op) (db db' : DB)
    (hInv : LedgerInv db) (hallow : ∀ op ∈ ops, allowedOp op)
    (hrun : runOps db ops = some db') : LedgerInv db' :=
  ledgerInv_runOps ops db db' hInv hallow hrun

/-- Payload of the movement used by the C2 witness: a check-out of 2 from
`loc-0`. -/
def fixtureCheckOut2 : TxnData :=
  { transaction_type := "check_out", product_id := ⟨"prod-", 0⟩,
    source_location_id := some ⟨"loc-", 0⟩, destination_location_id := none,
    quantity := 2, batch_number := none, expiration_date := none, notes := none }

/-- Witness for C2: from the empty store, a manual count to 5 followed by a
successful check-out of 2 keeps cache and signed ledger sum equal. -/
theorem C2_cache_equals_signed_ledger_sum_witness :
    cachedQty ((runOps DB.empty
        [Op.setQuantity ⟨"prod-", 0⟩ ⟨"loc-", 0⟩ 5 "u",
         Op.recordTxn fixtureCheckOut2 "u" none]).getD DB.empty)
        ⟨"prod-", 0⟩ ⟨"loc-", 0⟩ =
    ledgerSum ((runOps DB.empty
        [Op.setQuantity ⟨"prod-", 0⟩ ⟨"loc-", 0⟩ 5 "u",
         Op.recordTxn fixtureCheckOut2 "u" none]).getD DB.empty)
        ⟨"prod-", 0⟩ ⟨"loc-", 0⟩ :=
  C2_cache_equals_signed_ledger_sum
    [Op.setQuantity ⟨"prod-", 0⟩ ⟨"loc-", 0⟩ 5 "u",
     Op.recordTxn fixtureCheckOut2 "u" none]
    DB.empty _ (fun p l => rfl)
    (by
      intro op hop
      rcases List.mem_cons.mp hop with h | hop2
      · subst h; trivial
      · rcases List.mem_cons.mp hop2 with h | h3
        · subst h
          exact Or.inr (Or.inl ⟨rfl, rfl, rfl⟩)
        · cases h3)
    rfl ⟨"prod-", 0⟩ ⟨"loc-", 0⟩

/-- A store with an `in_progress` check-in session `sess-0` owning two
check-in ledger rows of 5 and 3 into location `loc-0`, whose inventory
record holds 8. -/
def fixtureCancel : DB :=
  { products := [], categories := [], locations := [],
    inventory := [{ id := ⟨"inv-", 0⟩, product_id := ⟨"prod-", 0⟩,
                    location_id := ⟨"loc-", 0⟩, quantity := 8 }],
    transactions :=
      [{ id := ⟨"trx-", 0⟩, transaction_type := "check_in", product_id := ⟨"prod-", 0⟩,
         source_location_id := none, destination_location_id := some ⟨"loc-", 0⟩,
         quantity := 5, batch_number := none, expiration_date := none, notes := none,
         created_by := "u", session_id := some ⟨"sess-", 0⟩ },
       { id := ⟨"trx-", 1⟩, transaction_type := "check_in", product_id := ⟨"prod-", 0⟩,
         source_location_id := none, destination_location_id := some ⟨"loc-", 0⟩,
         quantity := 3, batch_number := none, expiration_date := none, notes := none,
         created_by := "u", session_id := some ⟨"sess-", 0⟩ }],
    sessions := [{ id := ⟨"sess-", 0⟩, session_type := "check_in",
                   status := "in_progress", location_id := ⟨"loc-", 0⟩,
                   created_by := "u", notes := none }],
    nextId := 2 }

/-- C3: cancelling an `in_progress` session succeeds, applies the inverse
quantity effect of every transaction logged under the session directly
against the inventory records (check-in rows subtract from their
destination, check-out rows add back to their source), and sets the session
status to `cancelled`. -/
theorem C3_cancel_applies_inverse_effects (db : DB) (sid : Ident) (u : String)
    (s : Session)
    (hsess : getSessionById db sid = some s) (hstat : s.status = "in_progress")
    (hex : ∀ t ∈ getSessionTransactions db sid, txnTargetExists db.inventory t = true) :
    ((cancelSession db sid u).2 = none)
    ∧ (∃ s', getSessionById (cancelSession db sid u).1 sid = some s' ∧
        s'.status = "cancelled")
    ∧ (∀ p l, cachedQty (cancelSession db sid u).1 p l =
        cachedQty db p l +
          ((getSessionTransactions db sid).map (reversalEffect p l)).sum) := by
  rw [cancelSession_success db sid u s hsess hstat]
  refine ⟨rfl, ?_, ?_⟩
  · have hkey0 := List.find?_some
      (show db.sessions.find? (fun x => x.id == sid) = some s from hsess)
    have hkey : (s.id == sid) = true := hkey0
    refine ⟨{ s with status := "cancelled" }, ?_, rfl⟩
    show (db.sessions.map (fun x =>
        if x.id == sid then { x with status := "cancelled" } else x)).find?
        (fun x => x.id == sid) = some { s with status := "cancelled" }
    rw [find?_sessions_map_idFixed _
      (fun x => by by_cases h : (x.id == sid) = true <;> simp [h]) db.sessions sid]
    rw [show db.sessions.find? (fun x => x.id == sid) = some s from hsess]
    simp [hkey]
    intro h
    exact absurd (by simpa using hkey) h
  · intro p l
    show qtyOf ((getSessionTransactions db sid).foldl reverseTxn db.inventory) p l = _
    rw [qtyOf_foldl_reverseTxn _ _ hex p l]
    rfl

/-- Witness for C3: cancelling the fixture's check-in session (rows +5, +3)
changes the destination quantity by the summed inverse effect (8 - 8 = 0). -/
theorem C3_cancel_applies_inverse_effects_witness :
    cachedQty (cancelSession fixtureCancel ⟨"sess-", 0⟩ "u").1 ⟨"prod-", 0⟩ ⟨"loc-", 0⟩ =
      cachedQty fixtureCancel ⟨"prod-", 0⟩ ⟨"loc-", 0⟩ +
        ((getSessionTransactions fixtureCancel ⟨"sess-", 0⟩).map
          (reversalEffect ⟨"prod-", 0⟩ ⟨"loc-", 0⟩)).sum :=
  (C3_cancel_applies_inverse_effects fixtureCancel ⟨"sess-", 0⟩ "u"
    { id := ⟨"sess-", 0⟩, session_type := "check_in", status := "in_progress",
      location_id := ⟨"loc-", 0⟩, created_by := "u", notes := none }
    rfl rfl (by decide)).2.2 ⟨"prod-", 0⟩ ⟨"loc-", 0⟩

/-- A store with one session `sess-0` already in the terminal `completed`
status. -/
def fixtureTerminal : DB :=
  { products := [], categories := [], locations := [], inventory := [],
    transactions := [],
    sessions := [{ id := ⟨"sess-", 0⟩, session_type := "check_in",
                   status := "completed", location_id := ⟨"loc-", 0⟩,
                   created_by := "u", notes := none }],
    nextId := 1 }

/-- C4: `completed` and `cancelled` are terminal.  On a session whose status
is not `in_progress`, `completeSession`, `cancelSession` and
`addProductToSession` fail with an `InvalidState` condition and leave the
store untouched, and no engine operation ever changes such a session's row
(session ids are unique, as `generateId` guarantees). -/
theorem C4_terminal_states_are_absorbing (db : DB) (s : Session) (u : String)
    (td : SessionTxnData)
    (hs : s ∈ db.sessions) (hterm : s.status ≠ "in_progress")
    (hnd : (db.sessions.map Session.id).Nodup) :
    completeSession db s.id u = (db, some Err.sessionNotInProgress)
    ∧ cancelSession db s.id u = (db, some Err.sessionNotInProgress)
    ∧ addProductToSession db s.id td u = (db, some Err.cannotAddToSession)
    ∧ Err.isInvalidState Err.sessionNotInProgress = true
    ∧ Err.isInvalidState Err.cannotAddToSession = true
    ∧ (∀ op, s ∈ ((applyOp db op).1).sessions) := by
  have hsess : getSessionById db s.id = some s :=
    find?_sessions_of_mem_nodup db.sessions s hs hnd
  exact ⟨completeSession_terminal db s.id u s hsess hterm,
         cancelSession_terminal db s.id u s hsess hterm,
         addProductToSession_terminal db s.id td u s hsess hterm,
         rfl, rfl,
         fun op => mem_sessions_applyOp db s hs hterm hnd op⟩

/-- Witness for C4: completing the already-completed fixture session fails
with `InvalidState` and mutates nothing, and a cancel attempt leaves the
terminal session row in place. -/
theorem C4_terminal_states_are_absorbing_witness :
    completeSession fixtureTerminal ⟨"sess-", 0⟩ "u" =
      (fixtureTerminal, some Err.sessionNotInProgress)
    ∧ ({ id := ⟨"sess-", 0⟩, session_type := "check_in", status := "completed",
         location_id := ⟨"loc-", 0⟩, created_by := "u", notes := none } : Session) ∈
        ((applyOp fixtureTerminal (Op.cancelSess ⟨"sess-", 0⟩ "u")).1).sessions :=
  have h := C4_terminal_states_are_absorbing fixtureTerminal
    { id := ⟨"sess-", 0⟩, session_type := "check_in", status := "completed",
      location_id := ⟨"loc-", 0⟩, created_by := "u", notes := none }
    "u"
    { product_id := ⟨"prod-", 0⟩, quantity := 1, batch_number := none,
      expiration_date := none, notes := none }
    (by decide) (by decide) (by decide)
  ⟨h.1, h.2.2.2.2.2 (Op.cancelSess ⟨"sess-", 0⟩ "u")⟩

/-- C7: session cancellation on an `in_progress` session inserts no ledger
rows and mutates nothing but inventory quantities and the session row: the
transactions, products, categories, locations tables and the id counter are
unchanged, the inventory rows keep their identities and keys (only the
quantity column may change), and the sessions table changes only by setting
the cancelled session's status. -/
theorem C7_cancel_mutates_only_quantities_and_session (db : DB) (sid : Ident)
    (u : String) (s : Session)
    (hsess : getSessionById db sid = some s) (hstat : s.status = "in_progress") :
    ((cancelSession db sid u).2 = none)
    ∧ (cancelSession db sid u).1.transactions = db.transactions
    ∧ (cancelSession db sid u).1.products = db.products
    ∧ (cancelSession db sid u).1.categories = db.categories
    ∧ (cancelSession db sid u).1.locations = db.locations
    ∧ (cancelSession db sid u).1.nextId = db.nextId
    ∧ ((cancelSession db sid u).1.inventory.map (fun r => (r.id, r.product_id, r.location_id))
        = db.inventory.map (fun r => (r.id, r.product_id, r.location_id)))
    ∧ (cancelSession db sid u).1.sessions
        = db.sessions.map (fun x =>
            if x.id == sid then { x with status := "cancelled" } else x) := by
  rw [cancelSession_success db sid u s hsess hstat]
  exact ⟨rfl, rfl, rfl, rfl, rfl, rfl, stripKeys_foldl_reverseTxn _ _, rfl⟩

/-- Witness for C7: cancelling the fixture session leaves the two ledger
rows exactly as they were. -/
theorem C7_cancel_mutates_only_quantities_and_session_witness :
    (cancelSession fixtureCancel ⟨"sess-", 0⟩ "u").1.transactions =
      fixtureCancel.transactions :=
  (C7_cancel_mutates_only_quantities_and_session fixtureCancel ⟨"sess-", 0⟩ "u"
    { id := ⟨"sess-", 0⟩, session_type := "check_in", status := "in_progress",
      location_id := ⟨"loc-", 0⟩, created_by := "u", notes := none }
    rfl rfl).2.1

/-- A sample product row, parameterized by its barcode. -/
def fixtureProduct (bar : Option String) : Product :=
  { id := ⟨"prod-", 0⟩, name := "Wine", barcode := bar, description := none,
    category_id := none, supplier_id := none, unit_price := 10, unit_cost := 6,
    case_size := none, minimum_stock := 5, image_url := none, varietal := none,
    vintage := none, region := none, created_by := "u", is_active := true }

/-- A sample `createProduct` payload, parameterized by its barcode. -/
def fixtureProductData (bar : Option String) : ProductData :=
  { name := "Wine2", barcode := bar, description := none, category_id := none,
    supplier_id := none, unit_price := 12, unit_cost := 7, case_size := none,
    minimum_stock := 3, image_url := none, varietal := none, vintage := none,
    region := none }

/-- A catalog with one product whose barcode is `"123"`. -/
def fixtureCatalog : DB :=
  { DB.empty with products := [fixtureProduct (some "123")], nextId := 1 }

/-- A catalog with one product whose barcode is the *empty string*: non-null,
but falsy in JavaScript, so only the schema's `UNIQUE` constraint guards it. -/
def fixtureCatalogEmptyBarcode : DB :=
  { DB.empty with products := [fixtureProduct (some "")], nextId := 1 }

/-- C9: creating a product whose non-null barcode equals an existing
product's barcode fails with a `DuplicateKey` condition and writes nothing —
through the application-level duplicate check for truthy barcodes, or
through the schema's `barcode TEXT UNIQUE` constraint for the falsy empty
string — while products with null barcodes always pass (two null-barcode
products are allowed): barcode uniqueness is enforced only among non-null
values. -/
theorem C9_barcode_unique_among_nonnull :
    (∀ db pd (u b : String), pd.barcode = some b →
      (∃ p ∈ db.products, p.barcode = some b) →
      createProduct db pd u =
        (db, some (if b = "" then Err.uniqueConstraintBarcode
                   else Err.productBarcodeExists))
      ∧ Err.isDuplicateKey (if b = "" then Err.uniqueConstraintBarcode
          else Err.productBarcodeExists) = true)
    ∧ (∀ db pd (u : String), pd.barcode = none →
      ((createProduct db pd u).2 = none) ∧
      (createProduct db pd u).1.products.length = db.products.length + 1) := by
  constructor
  · intro db pd u b hb hex
    have hfound : (db.products.find? (fun p => p.barcode == pd.barcode)).isSome = true := by
      rw [List.find?_isSome]
      rcases hex with ⟨p, hp, hpb⟩
      exact ⟨p, hp, by simp [hpb, hb]⟩
    by_cases hbe : b = ""
    · have htruthy : truthyStr pd.barcode = false := by simp [truthyStr, hb, hbe]
      have hconf : barcodeConflict db pd.barcode = true := by
        rw [hb] at hfound ⊢
        simpa [barcodeConflict] using hfound
      refine ⟨?_, by simp [hbe, Err.isDuplicateKey]⟩
      simp [createProduct, htruthy, hconf, hbe]
    · have htruthy : truthyStr pd.barcode = true := by simp [truthyStr, hb, hbe]
      refine ⟨?_, by simp [hbe, Err.isDuplicateKey]⟩
      simp [createProduct, htruthy, hfound, hbe]
  · intro db pd u hb
    have htruthy : truthyStr pd.barcode = false := by simp [truthyStr, hb]
    have hconf : barcodeConflict db pd.barcode = false := by simp [barcodeConflict, hb]
    exact ⟨by simp [createProduct, htruthy, hconf],
           by simp [createProduct, htruthy, hconf, freshId]⟩

/-- Witness for C9: a duplicate of the existing truthy barcode `"123"` is
rejected by the app-level check, a duplicate of the existing falsy barcode
`""` is rejected by the schema's `UNIQUE` constraint — nothing written in
either case — and a null-barcode product is accepted and appended. -/
theorem C9_barcode_unique_among_nonnull_witness :
    createProduct fixtureCatalog (fixtureProductData (some "123")) "u" =
      (fixtureCatalog, some (if ("123" : String) = "" then Err.uniqueConstraintBarcode
                             else Err.productBarcodeExists))
    ∧ createProduct fixtureCatalogEmptyBarcode (fixtureProductData (some "")) "u" =
      (fixtureCatalogEmptyBarcode,
       some (if ("" : String) = "" then Err.uniqueConstraintBarcode
             else Err.productBarcodeExists))
    ∧ (createProduct fixtureCatalog (fixtureProductData none) "u").1.products.length =
        fixtureCatalog.products.length + 1 :=
  ⟨(C9_barcode_unique_among_nonnull.1 fixtureCatalog (fixtureProductData (some "123"))
      "u" "123" rfl
      ⟨fixtureProduct (some "123"), List.mem_singleton.mpr rfl, rfl⟩).1,
   (C9_barcode_unique_among_nonnull.1 fixtureCatalogEmptyBarcode
      (fixtureProductData (some "")) "u" "" rfl
      ⟨fixtureProduct (some ""), List.mem_singleton.mpr rfl, rfl⟩).1,
   (C9_barcode_unique_among_nonnull.2 fixtureCatalog (fixtureProductData none)
      "u" rfl).2⟩

/-- A ledger payload of type `adjustment` (not a movement kind). -/
def fixtureAdj : TxnData :=
  { transaction_type := "adjustment", product_id := ⟨"prod-", 0⟩,
    source_location_id := none, destination_location_id := some ⟨"loc-", 0⟩,
    quantity := 4, batch_number := none, expiration_date := none, notes := none }

/-- C10: `createInventoryTransaction` with type `adjustment` (or any type
other than the three movement kinds) inserts the ledger row and touches no
inventory record; the quantity change of an adjustment happens only inside
`updateInventoryQuantity`, which sets the cached quantity itself and then
logs exactly one `adjustment` row. -/
theorem C10_adjustment_logs_without_mutating_inventory :
    (∀ db (t : TxnData) (u : String) sid, t.transaction_type ≠ "check_in" →
      t.transaction_type ≠ "check_out" → t.transaction_type ≠ "transfer" →
      createInventoryTransaction db t u sid = (dbIns db t u sid, none)
      ∧ (dbIns db t u sid).inventory = db.inventory
      ∧ (dbIns db t u sid).transactions = db.transactions ++ [mkTxnRow db t u sid])
    ∧ (∀ db pid loc (q : Int) (u : String) r, findInventory db pid loc = some r →
      ((updateInventoryQuantity db pid loc q u).2 = none)
      ∧ cachedQty (updateInventoryQuantity db pid loc q u).1 pid loc = q
      ∧ (updateInventoryQuantity db pid loc q u).1.transactions.length
          = db.transactions.length + 1
      ∧ ((updateInventoryQuantity db pid loc q u).1.transactions.getLast?).map
          Txn.transaction_type = some "adjustment") := by
  constructor
  · intro db t u sid h1 h2 h3
    exact ⟨createInventoryTransaction_nonMovement db t u sid h1 h2 h3, rfl, rfl⟩
  · intro db pid loc q u r hfind
    rw [updateInventoryQuantity_existing db pid loc q u r hfind]
    refine ⟨rfl, ?_, ?_, ?_⟩
    · show qtyOf (setQtyAll db.inventory pid loc q) pid loc = q
      exact qtyOf_setQtyAll_self _ _ _ _
        (by simp [show findRec db.inventory pid loc = some r from hfind])
    · show (db.transactions ++ [_]).length = _
      simp
    · show ((db.transactions ++ [_]).getLast?).map Txn.transaction_type = _
      rw [List.getLast?_concat]
      rfl

/-- Witness for C10: an `adjustment` row logged directly leaves the stock-10
record untouched, and `updateInventoryQuantity` to 7 sets the cache to 7. -/
theorem C10_adjustment_logs_without_mutating_inventory_witness :
    createInventoryTransaction fixtureStock10 fixtureAdj "u" none =
      (dbIns fixtureStock10 fixtureAdj "u" none, none)
    ∧ cachedQty (updateInventoryQuantity fixtureStock10 ⟨"prod-", 0⟩ ⟨"loc-", 0⟩
        7 "u").1 ⟨"prod-", 0⟩ ⟨"loc-", 0⟩ = 7 :=
  ⟨(C10_adjustment_logs_without_mutating_inventory.1 fixtureStock10 fixtureAdj "u" none
      (by decide) (by decide) (by decide)).1,
   (C10_adjustment_logs_without_mutating_inventory.2 fixtureStock10 ⟨"prod-", 0⟩
      ⟨"loc-", 0⟩ 7 "u"
      { id := ⟨"inv-", 0⟩, product_id := ⟨"prod-", 0⟩, location_id := ⟨"loc-", 0⟩,
        quantity := 10 }
      rfl).2.1⟩

/-- A sample location row. -/
def fixtureLoc : Location := { id := ⟨"loc-", 0⟩, name := "Main", type := "main_storage" }

/-- The low-stock query filter bag: `lowStock` only, default pagination. -/
def fixtureFilters : InventoryFilters :=
  { locationId := none, categoryId := none, search := none, lowStock := true,
    limit := 100, offset := 0 }

/-- A store whose single active product (minimum stock 5) has exactly 5 on
hand at the single location — the boundary case `quantity = minimum_stock`. -/
def fixtureLow : DB :=
  { products := [fixtureProduct (some "123")], categories := [],
    locations := [fixtureLoc],
    inventory := [{ id := ⟨"inv-", 0⟩, product_id := ⟨"prod-", 0⟩,
                    location_id := ⟨"loc-", 0⟩, quantity := 5 }],
    transactions := [], sessions := [], nextId := 1 }

/-- The `fixtureProduct` row soft-deleted (`is_active = 0`). -/
def fixtureProductInactive : Product :=
  { fixtureProduct (some "123") with is_active := false }

/-- A store whose single product is inactive and out of stock (0 ≤ minimum
stock 5). -/
def fixtureInactive : DB :=
  { products := [fixtureProductInactive], categories := [],
    locations := [fixtureLoc],
    inventory := [{ id := ⟨"inv-", 0⟩, product_id := ⟨"prod-", 0⟩,
                    location_id := ⟨"loc-", 0⟩, quantity := 0 }],
    transactions := [], sessions := [], nextId := 1 }

/-- C8 (amended): restricted to active products (and rows whose location
resolves in the `locations` join), with the low-stock filter on and the
results within one page, the query returns exactly the joined rows with
`quantity ≤ minimum_stock` — the boundary `quantity = minimum_stock`
included by `≤` — and the summary's low-stock count counts exactly those
rows. -/
theorem C8_low_stock_exact_among_active (db : DB) (f : InventoryFilters)
    (hlow : f.lowStock = true) (hloc : f.locationId = none)
    (hcat : f.categoryId = none) (hsearch : f.search = none) (hoff : f.offset = 0)
    (hlim : (lowRows db).length ≤ f.limit)
    (hlocs : ∀ r ∈ db.inventory,
      (db.locations.find? (fun l => l.id == r.location_id)).isSome) :
    (∀ row, row ∈ getInventory db f ↔ row ∈ lowRows db)
    ∧ (getInventorySummary db).low_stock_count = (lowRows db).length := by
  refine ⟨getInventory_lowOnly db f hloc hcat hsearch hlow hoff hlim, ?_⟩
  show ((activePairs db).filter (fun x => x.1.quantity ≤ x.2.minimum_stock)).length = _
  unfold activePairs lowRows
  exact lowCount_aux db db.inventory hlocs

/-- Witness for C8: at the boundary (quantity 5 = minimum stock 5) the
fixture row is listed by the low-stock query and counted by the summary. -/
theorem C8_low_stock_exact_among_active_witness :
    ((getInventorySummary fixtureLow).low_stock_count = (lowRows fixtureLow).length)
    ∧ ({ record := { id := ⟨"inv-", 0⟩, product_id := ⟨"prod-", 0⟩,
                     location_id := ⟨"loc-", 0⟩, quantity := 5 },
         product := fixtureProduct (some "123"), location := fixtureLoc,
         category := none } ∈ getInventory fixtureLow fixtureFilters ↔
       { record := { id := ⟨"inv-", 0⟩, product_id := ⟨"prod-", 0⟩,
                     location_id := ⟨"loc-", 0⟩, quantity := 5 },
         product := fixtureProduct (some "123"), location := fixtureLoc,
         category := none } ∈ lowRows fixtureLow) :=
  have h := C8_low_stock_exact_among_active fixtureLow fixtureFilters
    rfl rfl rfl rfl rfl (by decide) (by decide)
  ⟨h.2, h.1 _⟩

/-- Counterexample to C8 as stated: an inactive product's (product, location)
pair with quantity 0 ≤ minimum stock 5 is neither returned by the low-stock
query nor counted by the summary, because both filter on `p.is_active = 1`;
so the query does not return "exactly the set of pairs with
quantity ≤ minimum_stock". -/
theorem C8_counterexample_inactive_pair_excluded :
    getInventory fixtureInactive fixtureFilters = []
    ∧ findInventory fixtureInactive ⟨"prod-", 0⟩ ⟨"loc-", 0⟩ =
        some { id := ⟨"inv-", 0⟩, product_id := ⟨"prod-", 0⟩,
               location_id := ⟨"loc-", 0⟩, quantity := 0 }
    ∧ ((0 : Int) ≤ fixtureProductInactive.minimum_stock)
    ∧ (getInventorySummary fixtureInactive).low_stock_count = 0 := by
  refine ⟨rfl, rfl, by decide, rfl⟩

end Inventory
